import Mathlib

/-!
# Yoga Coach front end: realtime session and streaming coordinator

A shallow embedding of `frontend/src/services/websocket.js` (the channel
client `WebSocketService`) and of the session handlers of
`frontend/src/pages/LivePracticePage.jsx`, followed by theorems about them.

Conventions of the embedding.

* Mutable JavaScript state is passed explicitly in a `World`: the React state
  and refs of the page, the fields of the `websocketService` singleton, the
  `WebSocket` objects the browser has constructed, the pending timers, and an
  append-only log of observable effects (oldest first).
* A value that is `null` (or `undefined`) or a string is an `Option String`;
  JavaScript truthiness of such a value is `truthy`.
* `Date.now()` is an argument of the handler that reads it; timestamps are
  integers (milliseconds since the epoch).
* What the environment decides (whether `new WebSocket` throws, whether an RPC
  is rejected, what a frame contains) is an argument of the operation.
* A handler reads the React state of the current `World`, i.e. it is the
  handler of the latest render.
* A state setter called with a value other than the current one is followed by
  a render. A render creates `handlePoseResults` anew, so the function object
  in force after it has no `lastTime`.
-/

namespace YogaCoach

/-! ## Values -/

/-- A JSON value, as produced by `JSON.parse` or given to `JSON.stringify`. -/
inductive Json where
  | null
  | bool (b : Bool)
  | num (n : Int)
  | str (s : String)
  | arr (items : List Json)
  | obj (fields : List (String × Json))

/-- Truthiness of a value that is `null`/`undefined` or a string: only a
non-empty string is truthy. -/
def truthy : Option String → Bool
  | none => false
  | some s => s != ""

/-- Truthiness of a value that is `undefined` or a number: `0` is falsy. -/
def truthyNum : Option Int → Bool
  | none => false
  | some n => n != 0

/-- Truthiness of a timer handle held in a ref (`null` or a number). -/
def truthyHandle : Option Nat → Bool
  | none => false
  | some n => n != 0

/-- Property read `value.key` on a JSON value: throws on `null`, is
`undefined` (`none`) on a missing key and on primitives and arrays. -/
def Json.prop (key : String) : Json → Except String (Option Json)
  | .null => .error "TypeError"
  | .obj fields => .ok (fields.lookup key)
  | _ => .ok none

/-- The value `sessionId` as it appears inside an object literal. -/
def Json.ofId : Option String → Json
  | none => .null
  | some s => .str s

/-! ## Observable effects -/

/-- Effects on the outside world, in the order they are logged. -/
inductive Effect where
  | newWebSocket (handle : Nat) (url : String)
  | wsSend (handle : Nat) (payload : Json)
  | wsClose (handle : Nat)
  | setTimeout (delay : Nat)
  | setInterval (handle : Nat) (ms : Nat)
  | clearInterval (handle : Nat)
  | consoleLog (text : String)
  | consoleWarn (text : String)
  | consoleError (text : String)
  | alert (text : String)
  | listenerCall (listener : Nat) (data : Json)
  | startSession
  | analyzePose (sessionId : String) (landmarks : Json) (poseHint : Option String)
  | mergeAndExport (sessionId : String)
  | navigate (href : String)
  | uncaught (error : String)

/-- Recognises a forwarded analysis request. -/
def Effect.isAnalyzePose : Effect → Bool
  | .analyzePose _ _ _ => true
  | _ => false

/-- Recognises the construction of a `WebSocket`. -/
def Effect.isNewWebSocket : Effect → Bool
  | .newWebSocket _ _ => true
  | _ => false

/-- Recognises a `close()` call on a `WebSocket`. -/
def Effect.isWsClose : Effect → Bool
  | .wsClose _ => true
  | _ => false

/-- Recognises the scheduling of a reconnect timer. -/
def Effect.isSetTimeout : Effect → Bool
  | .setTimeout _ => true
  | _ => false

/-- The listener invocation recorded by an effect, if it is one. -/
def Effect.listenerCall? : Effect → Option (Nat × Json)
  | .listenerCall l d => some (l, d)
  | _ => none

/-- The delay of the reconnect timer recorded by an effect, if it is one. -/
def Effect.timeoutDelay? : Effect → Option Nat
  | .setTimeout d => some d
  | _ => none

/-! ## State -/

/-- The `readyState` of a browser `WebSocket`. -/
inductive ReadyState where
  | connecting
  | open
  | closing
  | closed
  deriving DecidableEq, Repr

/-- A `WebSocket` object constructed by `connect`. Its four handlers are
attached by `connect` right after construction; `boundId` is the `sessionId`
argument of that `connect` call, which the `onopen` closure captures. -/
structure Socket where
  readyState : ReadyState
  boundId : Option String
  sent : List Json

/-- React state and refs of `LivePracticePage`, with the `lastTime` property
of the `handlePoseResults` function object of the latest render. -/
structure Page where
  sessionId : Option String
  isRecording : Bool
  feedback : Option Json
  duration : Nat
  selectedPose : String
  isLoading : Bool
  timerRef : Option Nat
  lastTime : Option Int

/-- A registered callback: its identity as a function object and what a call
does. A call acts on the page state and either returns or throws; listeners
do not call back into the channel client (the only listener this repository
registers, `handleWebSocketMessage`, only sets the feedback state). -/
structure Listener where
  ident : Nat
  call : Json → Page → Page × Option String

/-- The fields of `WebSocketService`. `ws` is a handle into `World.sockets`. -/
structure WebSocketService where
  ws : Option Nat
  sessionId : Option String
  listeners : List Listener
  reconnectAttempts : Nat
  maxReconnectAttempts : Nat

/-- The whole client state. -/
structure World where
  page : Page
  svc : WebSocketService
  sockets : List Socket
  timeouts : List Nat
  intervals : List Nat
  nextInterval : Nat
  log : List Effect

/-- Completion of a statement: normal, or abrupt with a thrown value. -/
inductive Completion where
  | normal
  | throw (error : String)
  deriving DecidableEq, Repr

/-- The `constructor` of `WebSocketService`. -/
def WebSocketService.new : WebSocketService :=
  { ws := none, sessionId := none, listeners := [], reconnectAttempts := 0,
    maxReconnectAttempts := 5 }

/-- The `useState`/`useRef` initial values of `LivePracticePage`. -/
def Page.initial : Page :=
  { sessionId := none, isRecording := false, feedback := none, duration := 0,
    selectedPose := "", isLoading := false, timerRef := none, lastTime := none }

/-- The client right after the page first renders. -/
def World.initial : World :=
  { page := Page.initial, svc := WebSocketService.new, sockets := [], timeouts := [],
    intervals := [], nextInterval := 1, log := [] }

/-- Appends one effect to the log. -/
def World.emit (w : World) (e : Effect) : World :=
  { w with log := w.log ++ [e] }

/-- The effects logged between an earlier world and a later one. -/
def effectsSince (before after : World) : List Effect :=
  after.log.drop before.log.length

/-- Applies `f` to the element at position `i`, if there is one. -/
def modifyAt {α : Type} (f : α → α) : Nat → List α → List α
  | _, [] => []
  | 0, x :: xs => f x :: xs
  | i + 1, x :: xs => x :: modifyAt f i xs

/-! ## Renders and state setters of `LivePracticePage` -/

/-- `Object.is` on two values of the feedback state: primitives are compared
by value; an object or array that a frame carried is a new reference, equal
to nothing held before. -/
def sameValue : Option Json → Option Json → Bool
  | none, none => true
  | some .null, some .null => true
  | some (.bool a), some (.bool b) => a == b
  | some (.num a), some (.num b) => a == b
  | some (.str a), some (.str b) => a == b
  | _, _ => false

/-- A render of `LivePracticePage`: the component body runs again and
`handlePoseResults` is a new function object, which has no `lastTime`. -/
def Page.rendered (p : Page) : Page :=
  { p with lastTime := none }

/-- What follows a state setter: a render when the value changed, nothing
when it did not. -/
def Page.afterSet (changed : Bool) (p : Page) : Page :=
  if changed then p.rendered else p

/-- `setIsLoading(value)`. -/
def Page.setIsLoading (value : Bool) (p : Page) : Page :=
  Page.afterSet (p.isLoading != value) { p with isLoading := value }

/-- `setIsRecording(value)`. -/
def Page.setIsRecording (value : Bool) (p : Page) : Page :=
  Page.afterSet (p.isRecording != value) { p with isRecording := value }

/-- `setSessionId(value)`. -/
def Page.setSessionId (value : Option String) (p : Page) : Page :=
  Page.afterSet (p.sessionId != value) { p with sessionId := value }

/-- `setFeedback(value)`. -/
def Page.setFeedback (value : Option Json) (p : Page) : Page :=
  Page.afterSet (!sameValue p.feedback value) { p with feedback := value }

/-- `setDuration(prev => prev + 1)`: the value always changes. -/
def Page.tickDuration (p : Page) : Page :=
  Page.afterSet true { p with duration := p.duration + 1 }

/-! ## `WebSocketService` -/

/-- The constant `wsUrl` of `connect`. -/
def wsUrl : String := "ws://localhost:8000/ws"

/-- The browser's `WebSocket.prototype.close()`: starts closing a socket that
is connecting or open, does nothing otherwise. -/
def Socket.close (s : Socket) : Socket :=
  match s.readyState with
  | .closing => s
  | .closed => s
  | _ => { s with readyState := .closing }

/-- The browser's `WebSocket.prototype.send(text)` on socket `h`: throws while
the socket is connecting, transmits when it is open, discards otherwise. -/
def wsSend (h : Nat) (payload : Json) (w : World) : World × Completion :=
  match w.sockets[h]? with
  | none => (w, .throw "TypeError")
  | some s =>
    match s.readyState with
    | .connecting => (w, .throw "InvalidStateError")
    | .open =>
      ({ w with sockets := modifyAt (fun t => { t with sent := t.sent ++ [payload] }) h w.sockets,
                log := w.log ++ [.wsSend h payload] }, .normal)
    | _ => (w, .normal)

/-- `connect(sessionId)`. `ctorThrows` says whether `new WebSocket(wsUrl)`
throws; the handler assignments that follow cannot throw. -/
def connect (sessionId : Option String) (ctorThrows : Bool) (w : World) : World :=
  let w1 : World := { w with svc := { w.svc with sessionId := sessionId } }
  if ctorThrows then
    w1.emit (.consoleError "[WebSocket] 連接失敗:")
  else
    let h := w1.sockets.length
    { w1 with
      svc := { w1.svc with ws := some h }
      sockets := w1.sockets ++ [{ readyState := .connecting, boundId := sessionId, sent := [] }]
      log := w1.log ++ [.newWebSocket h wsUrl] }

/-- `handleReconnect()`. The scheduled callback is `fireTimeout`. -/
def handleReconnect (w : World) : World :=
  if w.svc.reconnectAttempts < w.svc.maxReconnectAttempts && truthy w.svc.sessionId then
    let n := w.svc.reconnectAttempts + 1
    { w with
      svc := { w.svc with reconnectAttempts := n }
      timeouts := w.timeouts ++ [2000 * n]
      log := w.log ++ [.consoleLog ("[WebSocket] 嘗試重新連接 (" ++ toString n ++ "/"
                          ++ toString w.svc.maxReconnectAttempts ++ ")"),
                       .setTimeout (2000 * n)] }
  else w

/-- The callback given to `setTimeout` by `handleReconnect`, run for the
pending timer at position `k`: `this.connect(this.sessionId)`. -/
def fireTimeout (k : Nat) (ctorThrows : Bool) (w : World) : World :=
  if k < w.timeouts.length then
    connect w.svc.sessionId ctorThrows { w with timeouts := w.timeouts.eraseIdx k }
  else w

/-- `addListener(callback)` for a callback that is a function. -/
def addListener (callback : Listener) (w : World) : World :=
  { w with svc := { w.svc with listeners := w.svc.listeners ++ [callback] } }

/-- `removeListener(callback)`: keeps the listeners that are not this
function object. -/
def removeListener (callback : Listener) (w : World) : World :=
  { w with svc := { w.svc with
      listeners := w.svc.listeners.filter (fun l => l.ident != callback.ident) } }

/-- `Array.prototype.forEach`: runs the body on each element in order and
stops at the first abrupt completion, which it propagates. -/
def forEach {α : Type} (body : α → World → World × Completion) :
    List α → World → World × Completion
  | [], w => (w, .normal)
  | x :: rest, w =>
    match body x w with
    | (w1, .normal) => forEach body rest w1
    | (w1, .throw e) => (w1, .throw e)

/-- A `try { body } catch (error) { handler }` statement. -/
def tryCatch (body : World → World × Completion)
    (handler : String → World → World × Completion) (w : World) : World × Completion :=
  match body w with
  | (w1, .normal) => (w1, .normal)
  | (w1, .throw e) => handler e w1

/-- The call `listener(data)`. -/
def callListener (l : Listener) (data : Json) (w : World) : World × Completion :=
  let r := l.call data w.page
  let w1 : World := { w with page := r.1, log := w.log ++ [.listenerCall l.ident data] }
  match r.2 with
  | none => (w1, .normal)
  | some e => (w1, .throw e)

/-- `notifyListeners(data)`. -/
def notifyListeners (data : Json) (w : World) : World × Completion :=
  forEach (fun l => tryCatch (callListener l data)
      (fun _ w1 => (w1.emit (.consoleError "[WebSocket] 監聽器錯誤:"), .normal)))
    w.svc.listeners w

/-- `disconnect()`. -/
def disconnect (w : World) : World :=
  match w.svc.ws with
  | none => w
  | some h =>
    { w with
      svc := { w.svc with sessionId := none,
                          reconnectAttempts := w.svc.maxReconnectAttempts,
                          ws := none }
      sockets := modifyAt Socket.close h w.sockets
      log := w.log ++ [.wsClose h, .consoleLog "[WebSocket] 已斷開連接"] }

/-- The data of a message event: text that `JSON.parse` rejects, or text that
it reads as a value. -/
inductive FrameData where
  | malformed (text : String)
  | wellFormed (value : Json)

/-- `JSON.parse(event.data)`. -/
def jsonParse : FrameData → Except String Json
  | .malformed _ => .error "SyntaxError"
  | .wellFormed v => .ok v

/-- The `onopen` handler installed by `connect(sessionId)`. -/
def onopen (sessionId : Option String) (w : World) : World × Completion :=
  let w1 : World :=
    { w with svc := { w.svc with reconnectAttempts := 0 }
             log := w.log ++ [.consoleLog "[WebSocket] 已連接"] }
  match w1.svc.ws with
  | none => (w1, .throw "TypeError")
  | some cur => wsSend cur (.obj [("session_id", Json.ofId sessionId)]) w1

/-- The `onmessage` handler installed by `connect`. -/
def onmessage (data : FrameData) (w : World) : World × Completion :=
  tryCatch
    (fun w0 =>
      match jsonParse data with
      | .error e => (w0, .throw e)
      | .ok v => notifyListeners v (w0.emit (.consoleLog "[WebSocket] 收到訊息:")))
    (fun _ w1 => (w1.emit (.consoleError "[WebSocket] 解析訊息失敗:"), .normal))
    w

/-- The `onerror` handler installed by `connect`. -/
def onerror (w : World) : World :=
  w.emit (.consoleError "[WebSocket] 錯誤:")

/-- The `onclose` handler installed by `connect`. -/
def onclose (w : World) : World :=
  handleReconnect (w.emit (.consoleLog "[WebSocket] 連接關閉"))

/-- Runs an event handler; an exception it lets escape is reported by the
browser and goes no further. -/
def runHandler (r : World × Completion) : World :=
  match r with
  | (w, .normal) => w
  | (w, .throw e) => w.emit (.uncaught e)

/-- The browser opens socket `h` (only a connecting socket can open). -/
def fireOpen (h : Nat) (w : World) : World :=
  match w.sockets[h]? with
  | none => w
  | some s =>
    if s.readyState = .connecting then
      runHandler (onopen s.boundId
        { w with sockets := modifyAt (fun t => { t with readyState := .open }) h w.sockets })
    else w

/-- A frame arrives on socket `h` (only an open socket delivers frames). -/
def fireMessage (h : Nat) (data : FrameData) (w : World) : World :=
  match w.sockets[h]? with
  | none => w
  | some s => if s.readyState = .open then runHandler (onmessage data w) else w

/-- Socket `h` closes (a socket closes once). -/
def fireClose (h : Nat) (w : World) : World :=
  match w.sockets[h]? with
  | none => w
  | some s =>
    if s.readyState = .closed then w
    else onclose { w with sockets := modifyAt (fun t => { t with readyState := .closed }) h w.sockets }

/-! ## `LivePracticePage` -/

/-- `handleWebSocketMessage(message)`. -/
def handleWebSocketMessage (message : Json) (p : Page) : Page × Option String :=
  match message.prop "type" with
  | .error e => (p, some e)
  | .ok (some (.str "pose_feedback")) =>
    match message.prop "data" with
    | .error e => (p, some e)
    | .ok d => (p.setFeedback d, none)
  | .ok _ => (p, none)

/-- The function object `handleWebSocketMessage` of one render. -/
def feedbackListener (ident : Nat) : Listener :=
  { ident := ident, call := handleWebSocketMessage }

/-- The interval callback `setDuration(prev => prev + 1)` of timer `h`. -/
def tick (h : Nat) (w : World) : World :=
  if h ∈ w.intervals then { w with page := w.page.tickDuration }
  else w

/-- The browser's `clearInterval(h)`. -/
def clearInterval (h : Nat) (w : World) : World :=
  { w with intervals := w.intervals.filter (fun i => i != h)
           log := w.log ++ [.clearInterval h] }

/-- `handlePoseResults(landmarks)`, with `now` the value of `Date.now()`. -/
def handlePoseResults (now : Int) (landmarks : Json) (w : World) : World :=
  if !truthy w.page.sessionId || !w.page.isRecording then w
  else
    match w.page.sessionId with
    | none => w
    | some sid =>
      if !truthyNum w.page.lastTime || decide (now - w.page.lastTime.getD 0 > 200) then
        { w with
          page := { w.page with lastTime := some now }
          log := w.log ++ [.analyzePose sid landmarks
                    (if w.page.selectedPose != "" then some w.page.selectedPose else none)] }
      else w

/-- `handleStartSession()` up to its `await`. -/
def handleStartSessionBegin (w : World) : World :=
  { w with page := w.page.setIsLoading true
           log := w.log ++ [.startSession] }

/-- `handleStartSession()` from its `await` on. `rpc` is the outcome of
`apiService.startSession()`: rejected, or resolved with `data.session_id`;
`fn` is the identity of this render's `handleWebSocketMessage`. -/
def handleStartSessionResume (rpc : Except String (Option String)) (fn : Nat)
    (ctorThrows : Bool) (w : World) : World :=
  let w1 : World :=
    match rpc with
    | .ok sid =>
      let a : World := { w with page := (w.page.setSessionId sid).setIsRecording true }
      let b := addListener (feedbackListener fn) (connect sid ctorThrows a)
      { b with page := { b.page with timerRef := some b.nextInterval }
               intervals := b.intervals ++ [b.nextInterval]
               nextInterval := b.nextInterval + 1
               log := b.log ++ [.setInterval b.nextInterval 1000] }
    | .error _ =>
      { w with log := w.log ++ [.consoleError "開始練習失敗:",
                                 .alert "無法開始練習，請確認後端服務是否啟動"] }
  { w1 with page := w1.page.setIsLoading false }

/-- `handleStartSession()` with nothing interleaved at its `await`. -/
def handleStartSession (rpc : Except String (Option String)) (fn : Nat)
    (ctorThrows : Bool) (w : World) : World :=
  handleStartSessionResume rpc fn ctorThrows (handleStartSessionBegin w)

/-- `handleEndSession()` up to its `await`; `none` when it returns at once. -/
def handleEndSessionBegin (w : World) : Option World :=
  match w.page.sessionId with
  | none => none
  | some sid =>
    if truthy (some sid) then
      some { w with page := w.page.setIsLoading true
                    log := w.log ++ [.mergeAndExport sid] }
    else none

/-- `handleEndSession()` from its `await` on. `rpcOk` says whether
`apiService.mergeAndExport(sessionId)` resolved. -/
def handleEndSessionResume (rpcOk : Bool) (w : World) : World :=
  let w1 : World :=
    if rpcOk then
      let a : World := { w with page := w.page.setIsRecording false }
      let b := disconnect a
      let c := if truthyHandle b.page.timerRef then clearInterval (b.page.timerRef.getD 0) b else b
      { c with log := c.log ++ [.alert "練習結束！影片已儲存", .navigate "/history"] }
    else
      { w with log := w.log ++ [.consoleError "結束練習失敗:", .alert "結束練習時發生錯誤"] }
  { w1 with page := w1.page.setIsLoading false }

/-- `handleEndSession()` with nothing interleaved at its `await`. -/
def handleEndSession (rpcOk : Bool) (w : World) : World :=
  match handleEndSessionBegin w with
  | none => w
  | some w1 => handleEndSessionResume rpcOk w1

/-! ## Harness for sequences of samples -/

/-- A session that has started and whose channel has opened: the world after
`handleStartSession` resolved with session id `sid` and socket `0` opened. -/
def activeWorld (sid : String) : World :=
  fireOpen 0 (handleStartSession (.ok (some sid)) 0 false World.initial)

/-- Feeds the samples, each with the `Date.now()` of its call, to
`handlePoseResults` in order. -/
def runSamples : List (Int × Json) → World → World
  | [], w => w
  | s :: rest, w => runSamples rest (handlePoseResults s.1 s.2 w)

/-- Whether `handlePoseResults` forwards an analysis request for this call. -/
def forwards (now : Int) (landmarks : Json) (w : World) : Bool :=
  (effectsSince w (handlePoseResults now landmarks w)).any Effect.isAnalyzePose

/-- The call times of the samples for which a request is forwarded. -/
def forwardedTimes : List (Int × Json) → World → List Int
  | [], _ => []
  | s :: rest, w =>
    if forwards s.1 s.2 w then s.1 :: forwardedTimes rest (handlePoseResults s.1 s.2 w)
    else forwardedTimes rest (handlePoseResults s.1 s.2 w)

/-- Time between the first and the last call of a sequence of call times. -/
def elapsed (ts : List Int) : Int :=
  ts.getLastD 0 - ts.headD 0

/-- The forwarding decision of `handlePoseResults` as a function of the stored
`lastTime` alone, iterated over a sequence of call times. -/
def throttle : Option Int → List Int → List Int
  | _, [] => []
  | last, t :: ts =>
    if !truthyNum last || decide (t - last.getD 0 > 200) then t :: throttle (some t) ts
    else throttle last ts

/-! ## Events of the channel client -/

/-- The `error` event of socket `h`. -/
def fireError (h : Nat) (w : World) : World :=
  match w.sockets[h]? with
  | none => w
  | some _ => onerror w

/-- What can happen to the channel client: a call of `connect` or
`disconnect`, an event of one of its sockets, or a reconnect timer firing. -/
inductive ChannelEvent where
  | connect (sessionId : Option String) (ctorThrows : Bool)
  | disconnect
  | open (h : Nat)
  | message (h : Nat) (data : FrameData)
  | error (h : Nat)
  | close (h : Nat)
  | timer (k : Nat) (ctorThrows : Bool)

/-- Recognises the successful open of a connection. -/
def ChannelEvent.isOpen : ChannelEvent → Bool
  | .open _ => true
  | _ => false

/-- The effect of one event. -/
def ChannelEvent.apply : ChannelEvent → World → World
  | .connect sid t, w => YogaCoach.connect sid t w
  | .disconnect, w => YogaCoach.disconnect w
  | .open h, w => fireOpen h w
  | .message h d, w => fireMessage h d w
  | .error h, w => fireError h w
  | .close h, w => fireClose h w
  | .timer k t, w => fireTimeout k t w

/-- The effect of a sequence of events, first to last. -/
def runChannel : List ChannelEvent → World → World
  | [], w => w
  | e :: es, w => runChannel es (e.apply w)

/-- The number of reconnect timers scheduled between two worlds. -/
def scheduledSince (before after : World) : Nat :=
  ((effectsSince before after).filter Effect.isSetTimeout).length

/-- An unexpected closure followed by its reconnect timer firing (the oldest
pending timer), the new connection not opening. -/
def closeThenRetry (w : World) : World :=
  fireTimeout 0 false (onclose w)

/-- The active session `"abc123"` after its connection closed unexpectedly:
`handleReconnect` has scheduled the first reconnect, which is pending. -/
def pendingReconnectWorld : World :=
  fireClose 0 (activeWorld "abc123")

/-! ## Sending, teardown, and events of the whole client -/

/-- `send(message)`. -/
def send (message : Json) (w : World) : World :=
  match w.svc.ws with
  | none => w.emit (.consoleWarn "[WebSocket] 連接未開啟，無法發送訊息")
  | some h =>
    match w.sockets[h]? with
    | none => w.emit (.consoleWarn "[WebSocket] 連接未開啟，無法發送訊息")
    | some s =>
      if s.readyState = .open then runHandler (wsSend h message w)
      else w.emit (.consoleWarn "[WebSocket] 連接未開啟，無法發送訊息")

/-- Recognises a finalize/export request. -/
def Effect.isMergeAndExport : Effect → Bool
  | .mergeAndExport _ => true
  | _ => false

/-- Recognises a frame put on the wire. -/
def Effect.isWsSend : Effect → Bool
  | .wsSend _ _ => true
  | _ => false

/-- Recognises an exception that escaped a handler. -/
def Effect.isUncaught : Effect → Bool
  | .uncaught _ => true
  | _ => false

/-- Sequencing of two statements: the second runs if the first completes
normally. -/
def andThen (r : World × Completion) (next : World → World × Completion) :
    World × Completion :=
  match r with
  | (w, .normal) => next w
  | (w, .throw e) => (w, .throw e)

/-- The cleanup function returned by the `useEffect` of `LivePracticePage`.
`sessionId` is the value of the render that set the effect up; `timerRef` is
read when the cleanup runs. -/
def cleanup (sessionId : Option String) (w : World) : World × Completion :=
  andThen
    (if truthyHandle w.page.timerRef then (clearInterval (w.page.timerRef.getD 0) w, .normal)
     else (w, .normal))
    (fun a => if truthy sessionId then (disconnect a, .normal) else (a, .normal))

/-- The cleanup run at unmount: it belongs to the latest render, so it closed
over the session id the page holds. -/
def teardown (w : World) : World :=
  (cleanup w.page.sessionId w).1

/-- What can happen to the client while `LivePracticePage` is mounted: the two
halves of `handleStartSession` and of `handleEndSession`, the effect cleanup
(for whichever session id its render closed over), a landmark sample, a tick
of an interval, an event of a socket, or a reconnect timer firing. -/
inductive AppEvent where
  | startBegin
  | startResume (rpc : Except String (Option String)) (fn : Nat) (ctorThrows : Bool)
  | endBegin
  | endResume (rpcOk : Bool)
  | cleanup (sessionId : Option String)
  | sample (now : Int) (landmarks : Json)
  | tick (h : Nat)
  | open (h : Nat)
  | message (h : Nat) (data : FrameData)
  | error (h : Nat)
  | close (h : Nat)
  | timer (k : Nat) (ctorThrows : Bool)

/-- The effect of one event. -/
def AppEvent.apply : AppEvent → World → World
  | .startBegin, w => handleStartSessionBegin w
  | .startResume rpc fn t, w => handleStartSessionResume rpc fn t w
  | .endBegin, w => (handleEndSessionBegin w).getD w
  | .endResume ok, w => handleEndSessionResume ok w
  | .cleanup sid, w => (YogaCoach.cleanup sid w).1
  | .sample now lm, w => handlePoseResults now lm w
  | .tick h, w => YogaCoach.tick h w
  | .open h, w => fireOpen h w
  | .message h d, w => fireMessage h d w
  | .error h, w => fireError h w
  | .close h, w => fireClose h w
  | .timer k t, w => fireTimeout k t w

/-- The effect of a sequence of events, first to last. -/
def runApp : List AppEvent → World → World
  | [], w => w
  | e :: es, w => runApp es (e.apply w)

/-- Recognises the second half of a `handleStartSession` whose session-creation
call succeeded. -/
def AppEvent.isSuccessfulStart : AppEvent → Bool
  | .startResume (.ok _) _ _ => true
  | _ => false

/-- The session ids held by the page and by the channel client, without
repetition. -/
def heldSessions (w : World) : List String :=
  ([w.page.sessionId, w.svc.sessionId].filterMap id).dedup

/-- The feedback frame of the round-trip example. -/
def treePoseData : Json :=
  .obj [("pose_name", .str "Tree Pose"), ("score", .num 85), ("feedback", .str "hold steady"),
        ("correct", .bool true), ("details", .obj [("knee_angle", .num 170)])]

/-- The channel message carrying `treePoseData`. -/
def treePoseMessage : Json :=
  .obj [("type", .str "pose_feedback"), ("data", treePoseData)]

/-- A channel message of an unrecognised type. -/
def unknownMessage : Json :=
  .obj [("type", .str "unknown")]

/-- The listeners an event registers with the channel client. -/
def AppEvent.registers : AppEvent → List Listener
  | .startResume (.ok _) fn _ => [feedbackListener fn]
  | _ => []

/-- The listeners a sequence of events registers, in order. -/
def registered : List AppEvent → List Listener
  | [] => []
  | e :: es => e.registers ++ registered es

/-- The binding invariant: the session id bound in the channel client is null
or the one the page holds, and every registered listener is a
`handleWebSocketMessage`. -/
def Bound (w : World) : Prop :=
  (w.svc.sessionId = none ∨ w.svc.sessionId = w.page.sessionId)
  ∧ ∀ l ∈ w.svc.listeners, l.call = handleWebSocketMessage

/-! # Theorems -/

/-! ## Renders and state setters -/

/-- What follows a state setter leaves every field but `lastTime` alone. -/
theorem Page.afterSet_eq (c : Bool) (p : Page) :
    Page.afterSet c p = { p with lastTime := if c then none else p.lastTime } := by
  cases c <;> rfl

@[simp] theorem Page.setIsLoading_eq (b : Bool) (p : Page) :
    p.setIsLoading b
      = { p with isLoading := b
                 lastTime := if (p.isLoading != b) = true then none else p.lastTime } := by
  unfold Page.setIsLoading
  rw [Page.afterSet_eq]

@[simp] theorem Page.setIsRecording_eq (b : Bool) (p : Page) :
    p.setIsRecording b
      = { p with isRecording := b
                 lastTime := if (p.isRecording != b) = true then none else p.lastTime } := by
  unfold Page.setIsRecording
  rw [Page.afterSet_eq]

@[simp] theorem Page.setSessionId_eq (v : Option String) (p : Page) :
    p.setSessionId v
      = { p with sessionId := v
                 lastTime := if (p.sessionId != v) = true then none else p.lastTime } := by
  unfold Page.setSessionId
  rw [Page.afterSet_eq]

@[simp] theorem Page.setFeedback_eq (v : Option Json) (p : Page) :
    p.setFeedback v
      = { p with feedback := v
                 lastTime := if (!sameValue p.feedback v) = true then none else p.lastTime } := by
  unfold Page.setFeedback
  rw [Page.afterSet_eq]

@[simp] theorem Page.tickDuration_eq (p : Page) :
    p.tickDuration = { p with duration := p.duration + 1, lastTime := none } := by
  unfold Page.tickDuration
  rw [Page.afterSet_eq]
  rfl


/-! ## The sample throttle -/

theorem effectsSince_self (w : World) : effectsSince w w = [] := by
  simp [effectsSince]

theorem effectsSince_append (w w1 : World) (es : List Effect) (h : w1.log = w.log ++ es) :
    effectsSince w w1 = es := by
  simp [effectsSince, h]

/-- What one call of `handlePoseResults` logs: nothing, or one analysis request. -/
theorem handlePoseResults_log (now : Int) (lm : Json) (w : World) :
    ∃ es, (handlePoseResults now lm w).log = w.log ++ es ∧
      (es.filter Effect.isAnalyzePose).length = (if forwards now lm w then 1 else 0) := by
  unfold forwards
  unfold handlePoseResults
  split
  · exact ⟨[], by simp [effectsSince]⟩
  · split
    · exact ⟨[], by simp [effectsSince]⟩
    · split
      · exact ⟨_, rfl, by simp [effectsSince, Effect.isAnalyzePose]⟩
      · exact ⟨[], by simp [effectsSince]⟩

/-- One call of `handlePoseResults` in an active session. -/
theorem handlePoseResults_active (now : Int) (lm : Json) (w : World)
    (hs : truthy w.page.sessionId = true) (hr : w.page.isRecording = true) :
    forwards now lm w
        = (!truthyNum w.page.lastTime || decide (now - w.page.lastTime.getD 0 > 200))
    ∧ (handlePoseResults now lm w).page.sessionId = w.page.sessionId
    ∧ (handlePoseResults now lm w).page.isRecording = true
    ∧ (handlePoseResults now lm w).page.lastTime
        = (if (!truthyNum w.page.lastTime || decide (now - w.page.lastTime.getD 0 > 200)) = true
            then some now else w.page.lastTime) := by
  unfold forwards
  unfold handlePoseResults
  cases hsid : w.page.sessionId with
  | none => simp [hsid, truthy] at hs
  | some sid =>
    rw [hsid] at hs
    simp only [hs, hr, Bool.not_true, Bool.or_self, Bool.false_eq_true, if_false]
    by_cases hc : (!truthyNum w.page.lastTime || decide (now - w.page.lastTime.getD 0 > 200)) = true
    · simp only [hc, if_true]
      simp [effectsSince, Effect.isAnalyzePose, hsid, hr]
    · simp only [hc, if_false]
      simp [effectsSince, hsid, hr]

/-- In an active session the forwarded call times are those chosen by
`throttle` from the stored `lastTime`. -/
theorem forwardedTimes_eq_throttle (samples : List (Int × Json)) :
    ∀ w : World, truthy w.page.sessionId = true → w.page.isRecording = true →
      forwardedTimes samples w = throttle w.page.lastTime (samples.map Prod.fst) := by
  induction samples with
  | nil => intro w _ _; rfl
  | cons s rest ih =>
    intro w hs hr
    obtain ⟨hf, h1, h2, h3⟩ := handlePoseResults_active s.1 s.2 w hs hr
    have ih1 := ih (handlePoseResults s.1 s.2 w) (by rw [h1]; exact hs) h2
    simp only [forwardedTimes, List.map_cons, throttle, hf]
    by_cases hc : (!truthyNum w.page.lastTime || decide (s.1 - w.page.lastTime.getD 0 > 200)) = true
    · rw [if_pos hc] at h3
      rw [if_pos hc, if_pos hc, ih1, h3]
    · rw [if_neg hc] at h3
      rw [if_neg hc, if_neg hc, ih1, h3]

/-- The requests logged by a run of samples are as many as the forwarded
call times. -/
theorem runSamples_log (samples : List (Int × Json)) :
    ∀ w : World, ∃ es, (runSamples samples w).log = w.log ++ es ∧
      (es.filter Effect.isAnalyzePose).length = (forwardedTimes samples w).length := by
  induction samples with
  | nil => intro w; exact ⟨[], by simp [runSamples, forwardedTimes]⟩
  | cons s rest ih =>
    intro w
    obtain ⟨es1, h1, c1⟩ := handlePoseResults_log s.1 s.2 w
    obtain ⟨es2, h2, c2⟩ := ih (handlePoseResults s.1 s.2 w)
    refine ⟨es1 ++ es2, ?_, ?_⟩
    · simp only [runSamples, h2, h1, List.append_assoc]
    · simp only [List.filter_append, List.length_append, c1, c2, forwardedTimes]
      by_cases hf : forwards s.1 s.2 w = true
      · simp [hf]; omega
      · simp [hf]

/-- After a forward at a non-zero time `l`, with later calls at non-zero times
not before `l` and in non-decreasing order: every forwarded time is more than
200 ms after `l`, is one of the call times, and any two forwarded times are
more than 200 ms apart. -/
theorem throttle_some_spaced (ts : List Int) :
    ∀ l : Int, l ≠ 0 → (∀ t ∈ ts, l ≤ t) → (∀ t ∈ ts, t ≠ 0) → ts.Pairwise (fun a b => a ≤ b) →
      (∀ f ∈ throttle (some l) ts, 200 < f - l ∧ f ∈ ts)
      ∧ (throttle (some l) ts).Pairwise (fun a b => 200 < b - a) := by
  induction ts with
  | nil => intro l _ _ _ _; simp [throttle]
  | cons t ts ih =>
    intro l hl hge hnz hsorted
    have hsorted2 := List.pairwise_cons.mp hsorted
    have htl : truthyNum (some l) = true := by simp [truthyNum, hl]
    by_cases hc : t - l > 200
    · have ht0 : t ≠ 0 := hnz t (List.mem_cons_self _ _)
      obtain ⟨ihA, ihB⟩ := ih t ht0 (fun x hx => hsorted2.1 x hx)
        (fun x hx => hnz x (List.mem_cons_of_mem _ hx)) hsorted2.2
      have hthr : throttle (some l) (t :: ts) = t :: throttle (some t) ts := by
        simp [throttle, htl, hc]
      rw [hthr]
      constructor
      · intro f hf
        rcases List.mem_cons.mp hf with rfl | hf
        · exact ⟨hc, List.mem_cons_self _ _⟩
        · have := ihA f hf
          exact ⟨by omega, List.mem_cons_of_mem _ this.2⟩
      · exact List.pairwise_cons.mpr ⟨fun f hf => (ihA f hf).1, ihB⟩
    · obtain ⟨ihA, ihB⟩ := ih l hl (fun x hx => hge x (List.mem_cons_of_mem _ hx))
        (fun x hx => hnz x (List.mem_cons_of_mem _ hx)) hsorted2.2
      have hthr : throttle (some l) (t :: ts) = throttle (some l) ts := by
        simp [throttle, htl, hc]
      rw [hthr]
      exact ⟨fun f hf => ⟨(ihA f hf).1, List.mem_cons_of_mem _ (ihA f hf).2⟩, ihB⟩

/-- Times more than 200 ms apart that all lie at or before `hi`: the first
is at least 200 ms per further element before `hi`. -/
theorem spaced_span (fs : List Int) :
    ∀ a hi : Int, (a :: fs).Pairwise (fun x y => 200 < y - x) → (∀ f ∈ a :: fs, f ≤ hi) →
      a + 200 * (fs.length : Int) ≤ hi := by
  induction fs with
  | nil => intro a hi _ hle; simpa using hle a (List.mem_cons_self _ _)
  | cons b fs ih =>
    intro a hi hp hle
    have hp2 := List.pairwise_cons.mp hp
    have h1 := ih b hi hp2.2 (fun f hf => hle f (List.mem_cons_of_mem _ hf))
    have h2 := hp2.1 b (List.mem_cons_self _ _)
    simp only [List.length_cons, Nat.cast_add, Nat.cast_one]
    omega

/-- In a non-decreasing sequence every element is at most the last one. -/
theorem le_getLastD_of_sorted (ts : List Int) :
    ∀ d : Int, ts.Pairwise (fun a b => a ≤ b) → ∀ t ∈ ts, t ≤ ts.getLastD d := by
  induction ts with
  | nil => intro d _ t ht; simp at ht
  | cons x xs ih =>
    intro d hs t ht
    have hs2 := List.pairwise_cons.mp hs
    cases xs with
    | nil =>
      simp at ht
      simp [ht]
    | cons y ys =>
      have hlast : (x :: y :: ys).getLastD d = (y :: ys).getLastD x := by simp [List.getLastD]
      rw [hlast]
      rcases List.mem_cons.mp ht with rfl | ht
      · have h1 := hs2.1 y (List.mem_cons_self _ _)
        have h2 := ih t hs2.2 y (List.mem_cons_self _ _)
        omega
      · exact ih x hs2.2 t ht

/-! ## C1: the throttle bound -/

/-- C1, evaluated on the code. A fresh `handlePoseResults` in an active session
called three times at `Date.now() = 0` (a clock at the epoch, as a fake test
clock gives) forwards all three samples: the test `!handlePoseResults.lastTime`
reads the stored `lastTime = 0` as never set. The forwarded requests are not
200 ms apart and their number, 3, exceeds `ceil(0/200) + 1 = 1`. -/
theorem throttle_bound_fails_at_time_zero :
    truthy (activeWorld "abc123").page.sessionId = true
    ∧ (activeWorld "abc123").page.isRecording = true
    ∧ (activeWorld "abc123").page.lastTime = none
    ∧ ([(0, Json.null), (0, Json.null), (0, Json.null)].map Prod.fst).Pairwise
        (fun (a b : Int) => a ≤ b)
    ∧ forwardedTimes [(0, Json.null), (0, Json.null), (0, Json.null)] (activeWorld "abc123")
        = [0, 0, 0]
    ∧ ¬ (forwardedTimes [(0, Json.null), (0, Json.null), (0, Json.null)]
          (activeWorld "abc123")).Pairwise (fun a b => 200 < b - a)
    ∧ ¬ (((forwardedTimes [(0, Json.null), (0, Json.null), (0, Json.null)]
          (activeWorld "abc123")).length : Int)
        ≤ Int.ceil ((elapsed ([(0, Json.null), (0, Json.null), (0, Json.null)].map Prod.fst) : ℚ)
            / 200) + 1) := by
  have hf : forwardedTimes [(0, Json.null), (0, Json.null), (0, Json.null)]
      (activeWorld "abc123") = [0, 0, 0] := by decide
  have he : elapsed ([(0, Json.null), (0, Json.null), (0, Json.null)].map Prod.fst) = 0 := by
    decide
  refine ⟨by decide, by decide, by rfl, by decide, hf, ?_, ?_⟩
  · rw [hf]; decide
  · rw [hf, he]; norm_num

/-- The throttle bound away from the timestamp 0. For every sequence of samples
with non-decreasing, non-zero call times handled by one fresh
`handlePoseResults` in an active session: any two forwarded requests are
more than 200 ms apart, the number of forwarded requests is at most
`ceil(elapsed/200) + 1` with `elapsed` the time between the first and the
last call, and exactly that many analysis requests are logged. -/
theorem throttle_bound_nonzero (samples : List (Int × Json)) (w : World)
    (hs : truthy w.page.sessionId = true) (hr : w.page.isRecording = true)
    (hfresh : w.page.lastTime = none)
    (hmono : (samples.map Prod.fst).Pairwise (fun a b => a ≤ b))
    (hnz : ∀ t ∈ samples.map Prod.fst, t ≠ 0) :
    (forwardedTimes samples w).Pairwise (fun a b => 200 < b - a)
    ∧ ((forwardedTimes samples w).length : Int)
        ≤ Int.ceil ((elapsed (samples.map Prod.fst) : ℚ) / 200) + 1
    ∧ ((effectsSince w (runSamples samples w)).filter Effect.isAnalyzePose).length
        = (forwardedTimes samples w).length := by
  refine ⟨?_, ?_, ?_⟩
  · rw [forwardedTimes_eq_throttle samples w hs hr, hfresh]
    cases hts : samples.map Prod.fst with
    | nil => simp [throttle]
    | cons t rest =>
      rw [hts] at hmono hnz
      have hm2 := List.pairwise_cons.mp hmono
      obtain ⟨hA, hB⟩ := throttle_some_spaced rest t (hnz t (List.mem_cons_self _ _))
        (fun x hx => hm2.1 x hx) (fun x hx => hnz x (List.mem_cons_of_mem _ hx)) hm2.2
      have hthr : throttle none (t :: rest) = t :: throttle (some t) rest := by
        simp [throttle, truthyNum]
      rw [hthr]
      exact List.pairwise_cons.mpr ⟨fun f hf => (hA f hf).1, hB⟩
  · rw [forwardedTimes_eq_throttle samples w hs hr, hfresh]
    cases hts : samples.map Prod.fst with
    | nil => simp [throttle, elapsed]
    | cons t rest =>
      rw [hts] at hmono hnz
      have hm2 := List.pairwise_cons.mp hmono
      obtain ⟨hA, hB⟩ := throttle_some_spaced rest t (hnz t (List.mem_cons_self _ _))
        (fun x hx => hm2.1 x hx) (fun x hx => hnz x (List.mem_cons_of_mem _ hx)) hm2.2
      have hthr : throttle none (t :: rest) = t :: throttle (some t) rest := by
        simp [throttle, truthyNum]
      have hlast : ∀ f ∈ t :: throttle (some t) rest, f ≤ (t :: rest).getLastD 0 := by
        intro f hf
        apply le_getLastD_of_sorted (t :: rest) 0 hmono
        rcases List.mem_cons.mp hf with rfl | hf
        · exact List.mem_cons_self _ _
        · exact List.mem_cons_of_mem _ (hA f hf).2
      have hspan := spaced_span (throttle (some t) rest) t ((t :: rest).getLastD 0)
        (List.pairwise_cons.mpr ⟨fun f hf => (hA f hf).1, hB⟩) hlast
      have hel : elapsed (t :: rest) = (t :: rest).getLastD 0 - t := by
        simp [elapsed]
      rw [hthr, hel]
      have hq : (((throttle (some t) rest).length : Int) : ℚ)
          ≤ (((t :: rest).getLastD 0 - t : Int) : ℚ) / 200 := by
        rw [le_div_iff₀ (by norm_num)]
        have : ((throttle (some t) rest).length : Int) * 200 ≤ (t :: rest).getLastD 0 - t := by
          omega
        exact_mod_cast this
      have hc := Int.cast_le.mp (le_trans hq (Int.le_ceil _))
      simp only [List.length_cons, Nat.cast_add, Nat.cast_one]
      omega
  · obtain ⟨es, hlog, hcount⟩ := runSamples_log samples w
    rw [effectsSince_append w _ es hlog, hcount]

/-- The bound on calls at 1000, 1050, 1100 and 1301 ms in the active session
`"abc123"`. -/
theorem throttle_bound_nonzero_witness :
    (forwardedTimes [(1000, Json.null), (1050, Json.null), (1100, Json.null), (1301, Json.null)]
        (activeWorld "abc123")).Pairwise (fun a b => 200 < b - a)
    ∧ ((forwardedTimes [(1000, Json.null), (1050, Json.null), (1100, Json.null),
          (1301, Json.null)] (activeWorld "abc123")).length : Int)
        ≤ Int.ceil ((elapsed ([(1000, Json.null), (1050, Json.null), (1100, Json.null),
            (1301, Json.null)].map Prod.fst) : ℚ) / 200) + 1
    ∧ ((effectsSince (activeWorld "abc123")
          (runSamples [(1000, Json.null), (1050, Json.null), (1100, Json.null),
            (1301, Json.null)] (activeWorld "abc123"))).filter Effect.isAnalyzePose).length
        = (forwardedTimes [(1000, Json.null), (1050, Json.null), (1100, Json.null),
            (1301, Json.null)] (activeWorld "abc123")).length :=
  throttle_bound_nonzero _ (activeWorld "abc123") (by decide) (by decide) (by rfl)
    (by decide) (by decide)

/-! ## C2: samples outside an active session -/

/-- C2. Whenever the session is not active (`sessionId` is null, or otherwise
falsy, or `isRecording` is false), `handlePoseResults` returns the world
unchanged and forwards no analysis request, whatever the sample, the clock
and the throttle state. This covers a call made while `handleStartSession`
of the first session is still awaiting, and a call made after
`handleEndSession` has ended the session. -/
theorem handlePoseResults_inactive (now : Int) (landmarks : Json) (w v : World)
    (h : truthy w.page.sessionId = false ∨ w.page.isRecording = false) :
    (handlePoseResults now landmarks w = w ∧ forwards now landmarks w = false)
    ∧ handlePoseResults now landmarks (handleStartSessionBegin World.initial)
        = handleStartSessionBegin World.initial
    ∧ handlePoseResults now landmarks (handleEndSession true v) = handleEndSession true v := by
  have key : ∀ u : World, (truthy u.page.sessionId = false ∨ u.page.isRecording = false) →
      handlePoseResults now landmarks u = u := by
    intro u hu
    unfold handlePoseResults
    rcases hu with hu | hu <;> simp [hu]
  refine ⟨⟨key w h, ?_⟩, key _ (Or.inl (by rfl)), ?_⟩
  · unfold forwards
    rw [key w h, effectsSince_self]
    rfl
  · apply key
    unfold handleEndSession handleEndSessionBegin
    cases hsid : v.page.sessionId with
    | none => left; simp [hsid, truthy]
    | some sid =>
      by_cases ht : truthy (some sid) = true
      · right
        simp only [ht, if_true, handleEndSessionResume]
        simp only [disconnect, clearInterval]
        split <;> split <;> simp
      · left
        simp only [ht]
        simpa [hsid] using ht

/-- C2, witness: a sample offered before any session was started. -/
theorem handlePoseResults_inactive_witness :
    (handlePoseResults 1000 Json.null World.initial = World.initial
      ∧ forwards 1000 Json.null World.initial = false)
    ∧ handlePoseResults 1000 Json.null (handleStartSessionBegin World.initial)
        = handleStartSessionBegin World.initial
    ∧ handlePoseResults 1000 Json.null (handleEndSession true (activeWorld "abc123"))
        = handleEndSession true (activeWorld "abc123") :=
  handlePoseResults_inactive 1000 Json.null World.initial (activeWorld "abc123")
    (Or.inl (by decide))

/-! ## The channel client: dispatch -/

/-- The body of the `forEach` in `notifyListeners`. -/
theorem notify_body (data : Json) (l : Listener) (w : World) :
    ∃ es, (tryCatch (callListener l data)
          (fun _ w1 => (w1.emit (.consoleError "[WebSocket] 監聽器錯誤:"), .normal)) w)
        = ({ w with page := (l.call data w.page).1, log := w.log ++ es }, .normal)
      ∧ es.filterMap Effect.listenerCall? = [(l.ident, data)]
      ∧ es.filter Effect.isSetTimeout = []
      ∧ es.filter Effect.isWsClose = []
      ∧ es.filter Effect.isNewWebSocket = [] := by
  unfold tryCatch callListener
  cases hr : (l.call data w.page).2 with
  | none =>
    refine ⟨[.listenerCall l.ident data], ?_, by rfl, by rfl, by rfl, by rfl⟩
    simp [hr]
  | some e =>
    refine ⟨[.listenerCall l.ident data, .consoleError "[WebSocket] 監聽器錯誤:"],
      ?_, by rfl, by rfl, by rfl, by rfl⟩
    simp [hr, World.emit]

/-- The `forEach` of `notifyListeners` over any list of listeners: it
completes normally, calls every listener once in list order with `data`,
threads the page state through the calls, and touches nothing else. -/
theorem notify_forEach (data : Json) (ls : List Listener) :
    ∀ w : World, ∃ es,
      forEach (fun l => tryCatch (callListener l data)
          (fun _ w1 => (w1.emit (.consoleError "[WebSocket] 監聽器錯誤:"), .normal))) ls w
        = ({ w with page := ls.foldl (fun p l => (l.call data p).1) w.page,
                    log := w.log ++ es }, .normal)
      ∧ es.filterMap Effect.listenerCall? = ls.map (fun l => (l.ident, data))
      ∧ es.filter Effect.isSetTimeout = []
      ∧ es.filter Effect.isWsClose = []
      ∧ es.filter Effect.isNewWebSocket = [] := by
  induction ls with
  | nil => intro w; exact ⟨[], by simp [forEach], by rfl, by rfl, by rfl, by rfl⟩
  | cons l rest ih =>
    intro w
    obtain ⟨es1, h1, a1, b1, c1, d1⟩ := notify_body data l w
    obtain ⟨es2, h2, a2, b2, c2, d2⟩ :=
      ih { w with page := (l.call data w.page).1, log := w.log ++ es1 }
    refine ⟨es1 ++ es2, ?_, ?_, ?_, ?_, ?_⟩
    · simp only [forEach, h1, h2, List.foldl_cons, List.append_assoc]
    · simp [List.filterMap_append, a1, a2]
    · simp [List.filter_append, b1, b2]
    · simp [List.filter_append, c1, c2]
    · simp [List.filter_append, d1, d2]

/-- What `notifyListeners` does, in one statement. -/
theorem notifyListeners_spec (data : Json) (w : World) : ∃ es,
    notifyListeners data w
      = ({ w with page := w.svc.listeners.foldl (fun p l => (l.call data p).1) w.page,
                  log := w.log ++ es }, .normal)
    ∧ es.filterMap Effect.listenerCall? = w.svc.listeners.map (fun l => (l.ident, data))
    ∧ es.filter Effect.isSetTimeout = []
    ∧ es.filter Effect.isWsClose = []
    ∧ es.filter Effect.isNewWebSocket = [] :=
  notify_forEach data w.svc.listeners w

/-! ## C10: listener fan-out -/

/-- C10. For every list of registered listeners and every message,
`notifyListeners` completes normally (no exception escapes, whichever
listeners throw), calls each registered listener exactly once, in
registration order, with that message, lets every listener act on the page
in that order, and leaves the channel state (`ws`, `sessionId`,
`reconnectAttempts`, `listeners`), the sockets and the pending timers
unchanged. -/
theorem notifyListeners_fanout (data : Json) (w : World) :
    (notifyListeners data w).2 = Completion.normal
    ∧ (effectsSince w (notifyListeners data w).1).filterMap Effect.listenerCall?
        = w.svc.listeners.map (fun l => (l.ident, data))
    ∧ (notifyListeners data w).1.page
        = w.svc.listeners.foldl (fun p l => (l.call data p).1) w.page
    ∧ (notifyListeners data w).1.svc = w.svc
    ∧ (notifyListeners data w).1.sockets = w.sockets
    ∧ (notifyListeners data w).1.timeouts = w.timeouts := by
  obtain ⟨es, h, a, _, _, _⟩ := notifyListeners_spec data w
  rw [h]
  refine ⟨rfl, ?_, rfl, rfl, rfl, rfl⟩
  rw [effectsSince_append w _ es rfl, a]

/-! ## C8, C9: `disconnect` -/

/-- C9. `disconnect()` is idempotent: for every state, a second `disconnect()`
returns the state the first one produced, and logs nothing (it closes no
connection, schedules nothing, prints nothing). -/
theorem disconnect_idempotent (w : World) :
    disconnect (disconnect w) = disconnect w
    ∧ effectsSince (disconnect w) (disconnect (disconnect w)) = [] := by
  have h : disconnect (disconnect w) = disconnect w := by
    unfold disconnect
    cases hw : w.svc.ws with
    | none => simp [hw]
    | some i => simp
  exact ⟨h, by rw [h]; exact effectsSince_self _⟩

/-- C8, counterexample. `disconnect()` does nothing while `ws` is null. On the
freshly constructed service the attempt counter stays 0, not 5. After a
`connect("abc123")` whose `new WebSocket` threw, `ws` is still null, so
`disconnect()` leaves the session id bound and the counter at 0, and a
closure handled afterwards schedules a reconnect. -/
theorem disconnect_postcondition_fails_without_socket :
    (disconnect World.initial).svc.reconnectAttempts = 0
    ∧ (disconnect World.initial).svc.maxReconnectAttempts = 5
    ∧ (connect (some "abc123") true World.initial).svc.ws = none
    ∧ (disconnect (connect (some "abc123") true World.initial)).svc.sessionId = some "abc123"
    ∧ (disconnect (connect (some "abc123") true World.initial)).svc.reconnectAttempts = 0
    ∧ (effectsSince (disconnect (connect (some "abc123") true World.initial))
          (onclose (disconnect (connect (some "abc123") true World.initial)))).filterMap
        Effect.timeoutDelay? = [2000] := by
  refine ⟨by rfl, by rfl, by rfl, by rfl, by rfl, by decide⟩

/-- C8, amended. For every channel state whose `ws` reference is a
connection `h`: after `disconnect()` the bound session id is null, the
attempt counter equals `maxReconnectAttempts`, `close()` has been called on
that connection (and on no other), the `ws` reference is null, and a closure
event handled afterwards schedules no reconnect and leaves the counter
alone. For every channel state whose `ws` reference is null, `disconnect()`
changes nothing. -/
theorem disconnect_postcondition (w : World) :
    (∀ h, w.svc.ws = some h →
      (disconnect w).svc.sessionId = none
      ∧ (disconnect w).svc.reconnectAttempts = w.svc.maxReconnectAttempts
      ∧ (disconnect w).svc.maxReconnectAttempts = w.svc.maxReconnectAttempts
      ∧ (disconnect w).svc.ws = none
      ∧ (effectsSince w (disconnect w)).filter Effect.isWsClose = [Effect.wsClose h]
      ∧ (disconnect w).sockets = modifyAt Socket.close h w.sockets
      ∧ scheduledSince (disconnect w) (onclose (disconnect w)) = 0
      ∧ (onclose (disconnect w)).timeouts = (disconnect w).timeouts
      ∧ (onclose (disconnect w)).svc = (disconnect w).svc)
    ∧ (w.svc.ws = none → disconnect w = w) := by
  constructor
  · intro h hw
    have hd : disconnect w = { w with
        svc := { w.svc with sessionId := none,
                            reconnectAttempts := w.svc.maxReconnectAttempts, ws := none }
        sockets := modifyAt Socket.close h w.sockets
        log := w.log ++ [.wsClose h, .consoleLog "[WebSocket] 已斷開連接"] } := by
      unfold disconnect
      simp [hw]
    rw [hd]
    refine ⟨rfl, rfl, rfl, rfl, ?_, rfl, ?_, ?_, ?_⟩
    · rw [effectsSince_append w _ _ rfl]; rfl
    · simp [scheduledSince, onclose, handleReconnect, truthy, World.emit, effectsSince,
        Effect.isSetTimeout]
    · simp [onclose, handleReconnect, truthy, World.emit]
    · simp [onclose, handleReconnect, truthy, World.emit]
  · intro hw
    unfold disconnect
    simp [hw]

/-- C8, witness: the active session `"abc123"`, whose `ws` is socket `0`. -/
theorem disconnect_postcondition_witness :
    (disconnect (activeWorld "abc123")).svc.sessionId = none
    ∧ (disconnect (activeWorld "abc123")).svc.reconnectAttempts
        = (activeWorld "abc123").svc.maxReconnectAttempts
    ∧ (disconnect (activeWorld "abc123")).svc.maxReconnectAttempts
        = (activeWorld "abc123").svc.maxReconnectAttempts
    ∧ (disconnect (activeWorld "abc123")).svc.ws = none
    ∧ (effectsSince (activeWorld "abc123") (disconnect (activeWorld "abc123"))).filter
        Effect.isWsClose = [Effect.wsClose 0]
    ∧ (disconnect (activeWorld "abc123")).sockets
        = modifyAt Socket.close 0 (activeWorld "abc123").sockets
    ∧ scheduledSince (disconnect (activeWorld "abc123"))
        (onclose (disconnect (activeWorld "abc123"))) = 0
    ∧ (onclose (disconnect (activeWorld "abc123"))).timeouts
        = (disconnect (activeWorld "abc123")).timeouts
    ∧ (onclose (disconnect (activeWorld "abc123"))).svc
        = (disconnect (activeWorld "abc123")).svc :=
  (disconnect_postcondition (activeWorld "abc123")).1 0 (by rfl)

/-! ## The channel client: reconnecting -/

/-- The case in which `handleReconnect` schedules a reconnect. -/
theorem handleReconnect_schedules (w : World)
    (hlt : w.svc.reconnectAttempts < w.svc.maxReconnectAttempts)
    (hsid : truthy w.svc.sessionId = true) :
    handleReconnect w = { w with
      svc := { w.svc with reconnectAttempts := w.svc.reconnectAttempts + 1 }
      timeouts := w.timeouts ++ [2000 * (w.svc.reconnectAttempts + 1)]
      log := w.log ++ [.consoleLog ("[WebSocket] 嘗試重新連接 ("
                          ++ toString (w.svc.reconnectAttempts + 1) ++ "/"
                          ++ toString w.svc.maxReconnectAttempts ++ ")"),
                       .setTimeout (2000 * (w.svc.reconnectAttempts + 1))] } := by
  unfold handleReconnect
  simp [hlt, hsid]

/-- The case in which `handleReconnect` does nothing. -/
theorem handleReconnect_idle (w : World)
    (h : truthy w.svc.sessionId = false ∨ w.svc.maxReconnectAttempts ≤ w.svc.reconnectAttempts) :
    handleReconnect w = w := by
  unfold handleReconnect
  rcases h with h | h
  · simp [h]
  · simp [Nat.not_lt.mpr h]

/-- A reconnect timer firing keeps the attempt counter, the maximum and the
bound session id. -/
theorem fireTimeout_svc (k : Nat) (t : Bool) (w : World) :
    (fireTimeout k t w).svc.reconnectAttempts = w.svc.reconnectAttempts
    ∧ (fireTimeout k t w).svc.maxReconnectAttempts = w.svc.maxReconnectAttempts
    ∧ (fireTimeout k t w).svc.sessionId = w.svc.sessionId := by
  unfold fireTimeout connect
  by_cases hk : k < w.timeouts.length <;> cases t <;> simp [hk, World.emit]

/-- A closure followed by the retry, while attempts remain and a session id is
bound: the counter goes up by one, the maximum and the session id stay. -/
theorem closeThenRetry_svc (w : World)
    (hlt : w.svc.reconnectAttempts < w.svc.maxReconnectAttempts)
    (hsid : truthy w.svc.sessionId = true) :
    (closeThenRetry w).svc.reconnectAttempts = w.svc.reconnectAttempts + 1
    ∧ (closeThenRetry w).svc.maxReconnectAttempts = w.svc.maxReconnectAttempts
    ∧ (closeThenRetry w).svc.sessionId = w.svc.sessionId := by
  obtain ⟨h1, h2, h3⟩ := fireTimeout_svc 0 false (onclose w)
  unfold closeThenRetry
  rw [h1, h2, h3]
  unfold onclose
  rw [handleReconnect_schedules _ (by simpa [World.emit] using hlt)
    (by simpa [World.emit] using hsid)]
  simp [World.emit]

/-- After `n` closures each followed by its retry, starting from counter `a`
with `a + n` within the maximum: the counter is `a + n`. -/
theorem closeThenRetry_iterate (n : Nat) :
    ∀ w : World, w.svc.reconnectAttempts + n ≤ w.svc.maxReconnectAttempts →
      truthy w.svc.sessionId = true →
      (closeThenRetry^[n] w).svc.reconnectAttempts = w.svc.reconnectAttempts + n
      ∧ (closeThenRetry^[n] w).svc.maxReconnectAttempts = w.svc.maxReconnectAttempts
      ∧ (closeThenRetry^[n] w).svc.sessionId = w.svc.sessionId := by
  induction n with
  | zero => intro w _ _; simp
  | succ n ih =>
    intro w hle hsid
    obtain ⟨h1, h2, h3⟩ := ih w (by omega) hsid
    rw [Function.iterate_succ_apply']
    obtain ⟨g1, g2, g3⟩ := closeThenRetry_svc (closeThenRetry^[n] w)
      (by rw [h1, h2]; omega) (by rw [h3]; exact hsid)
    rw [g1, g2, g3, h1, h2, h3]
    exact ⟨by omega, rfl, rfl⟩

/-- The reconnect delays logged by the `onclose` handler when it schedules. -/
theorem onclose_delay (w : World)
    (hlt : w.svc.reconnectAttempts < w.svc.maxReconnectAttempts)
    (hsid : truthy w.svc.sessionId = true) :
    (effectsSince w (onclose w)).filterMap Effect.timeoutDelay?
      = [2000 * (w.svc.reconnectAttempts + 1)] := by
  unfold onclose
  rw [handleReconnect_schedules _ (by simpa [World.emit] using hlt)
    (by simpa [World.emit] using hsid)]
  simp [World.emit, effectsSince, Effect.timeoutDelay?]

/-! ## C5: linear backoff -/

/-- C5. Whenever `handleReconnect` schedules a reconnect (counter below the
maximum and a session id bound) it first increments the counter and then
schedules the timer with a delay of exactly counter x 2000 ms. When no
session id is bound or the counter has reached the maximum it schedules
nothing and changes nothing. Hence, from counter 0 with maximum 5, the
closure that follows `n` earlier closure-and-retry rounds (`n = 0..4`)
schedules its reconnect after `2000 * (n + 1)` ms: 2000, 4000, 6000, 8000,
10000. -/
theorem handleReconnect_linear_backoff (w : World) :
    (w.svc.reconnectAttempts < w.svc.maxReconnectAttempts → truthy w.svc.sessionId = true →
      (handleReconnect w).svc.reconnectAttempts = w.svc.reconnectAttempts + 1
      ∧ (effectsSince w (handleReconnect w)).filterMap Effect.timeoutDelay?
          = [2000 * (handleReconnect w).svc.reconnectAttempts]
      ∧ (handleReconnect w).timeouts
          = w.timeouts ++ [2000 * (handleReconnect w).svc.reconnectAttempts])
    ∧ ((truthy w.svc.sessionId = false
          ∨ w.svc.maxReconnectAttempts ≤ w.svc.reconnectAttempts) →
        handleReconnect w = w ∧ scheduledSince w (handleReconnect w) = 0)
    ∧ (w.svc.reconnectAttempts = 0 → w.svc.maxReconnectAttempts = 5 →
        truthy w.svc.sessionId = true →
        ∀ n, n < 5 →
          (effectsSince (closeThenRetry^[n] w) (onclose (closeThenRetry^[n] w))).filterMap
            Effect.timeoutDelay? = [2000 * (n + 1)]) := by
  refine ⟨?_, ?_, ?_⟩
  · intro hlt hsid
    rw [handleReconnect_schedules w hlt hsid]
    refine ⟨rfl, ?_, rfl⟩
    simp [effectsSince, Effect.timeoutDelay?]
  · intro h
    rw [handleReconnect_idle w h]
    exact ⟨rfl, by simp [scheduledSince, effectsSince]⟩
  · intro h0 hmax hsid n hn
    obtain ⟨h1, h2, h3⟩ := closeThenRetry_iterate n w (by omega) hsid
    rw [onclose_delay _ (by rw [h1, h2]; omega) (by rw [h3]; exact hsid), h1, h0]
    simp

/-- C5, witness: the active session `"abc123"`, counter 0, schedules its
first reconnect after 2000 ms and, after four closure-and-retry rounds, its
fifth after 10000 ms; once disconnected it schedules nothing. -/
theorem handleReconnect_linear_backoff_witness :
    ((handleReconnect (activeWorld "abc123")).svc.reconnectAttempts
        = (activeWorld "abc123").svc.reconnectAttempts + 1
      ∧ (effectsSince (activeWorld "abc123") (handleReconnect (activeWorld "abc123"))).filterMap
          Effect.timeoutDelay?
          = [2000 * (handleReconnect (activeWorld "abc123")).svc.reconnectAttempts]
      ∧ (handleReconnect (activeWorld "abc123")).timeouts
          = (activeWorld "abc123").timeouts
            ++ [2000 * (handleReconnect (activeWorld "abc123")).svc.reconnectAttempts])
    ∧ (handleReconnect (disconnect (activeWorld "abc123")) = disconnect (activeWorld "abc123")
      ∧ scheduledSince (disconnect (activeWorld "abc123"))
          (handleReconnect (disconnect (activeWorld "abc123"))) = 0)
    ∧ (effectsSince (closeThenRetry^[4] (activeWorld "abc123"))
          (onclose (closeThenRetry^[4] (activeWorld "abc123")))).filterMap
        Effect.timeoutDelay? = [2000 * (4 + 1)] :=
  ⟨(handleReconnect_linear_backoff (activeWorld "abc123")).1 (by decide) (by decide),
   (handleReconnect_linear_backoff (disconnect (activeWorld "abc123"))).2.1 (Or.inl (by decide)),
   (handleReconnect_linear_backoff (activeWorld "abc123")).2.2 (by decide) (by decide)
     (by decide) 4 (by decide)⟩

/-! ## C3: a reconnect pending at `disconnect` -/

/-- C3, evaluated on the code. With the first reconnect of session `"abc123"`
pending (2000 ms), `disconnect()` clears the session id, sets the counter to
5 and nulls `ws`, but the timer stays pending. When it fires, its callback
`this.connect(this.sessionId)` runs unguarded: it constructs a new
`WebSocket` (socket `1`) and stores it in `ws`; when that socket opens, the
counter is reset to 0 and the binding frame carries a null session id. -/
theorem reconnect_timer_fires_after_disconnect :
    pendingReconnectWorld.timeouts = [2000]
    ∧ (disconnect pendingReconnectWorld).svc.ws = none
    ∧ (disconnect pendingReconnectWorld).svc.sessionId = none
    ∧ (disconnect pendingReconnectWorld).svc.reconnectAttempts = 5
    ∧ (disconnect pendingReconnectWorld).timeouts = [2000]
    ∧ (effectsSince (disconnect pendingReconnectWorld)
          (fireTimeout 0 false (disconnect pendingReconnectWorld))).filter Effect.isNewWebSocket
        = [Effect.newWebSocket 1 wsUrl]
    ∧ (fireTimeout 0 false (disconnect pendingReconnectWorld)).svc.ws = some 1
    ∧ (fireTimeout 0 false (disconnect pendingReconnectWorld)).sockets.length = 2
    ∧ (fireOpen 1 (fireTimeout 0 false (disconnect pendingReconnectWorld))).svc.reconnectAttempts
        = 0
    ∧ (effectsSince (fireTimeout 0 false (disconnect pendingReconnectWorld))
          (fireOpen 1 (fireTimeout 0 false (disconnect pendingReconnectWorld)))).filterMap
        (fun e => match e with
          | Effect.wsSend h p => some (h, p)
          | _ => none)
        = [(1, Json.obj [("session_id", Json.null)])] := by
  refine ⟨by rfl, by rfl, by rfl, by rfl, by rfl, by rfl, by rfl, by rfl, by rfl, by rfl⟩

/-! ## The channel client: the attempt counter along a run -/

/-- `connect` logs one effect, not a timer, and keeps counter and maximum. -/
theorem connect_counter (sid : Option String) (t : Bool) (w : World) :
    ∃ es, (connect sid t w).log = w.log ++ es
      ∧ es.filter Effect.isSetTimeout = []
      ∧ (connect sid t w).svc.reconnectAttempts = w.svc.reconnectAttempts
      ∧ (connect sid t w).svc.maxReconnectAttempts = w.svc.maxReconnectAttempts := by
  unfold connect
  cases t
  · exact ⟨[.newWebSocket w.sockets.length wsUrl], by simp, by rfl, by simp, by simp⟩
  · exact ⟨[.consoleError "[WebSocket] 連接失敗:"], by simp [World.emit], by rfl,
      by simp [World.emit], by simp [World.emit]⟩

/-- `disconnect` schedules no timer, keeps the maximum, and leaves the
counter either alone or at the maximum. -/
theorem disconnect_counter (w : World) :
    ∃ es, (disconnect w).log = w.log ++ es
      ∧ es.filter Effect.isSetTimeout = []
      ∧ ((disconnect w).svc.reconnectAttempts = w.svc.reconnectAttempts
          ∨ (disconnect w).svc.reconnectAttempts = w.svc.maxReconnectAttempts)
      ∧ (disconnect w).svc.maxReconnectAttempts = w.svc.maxReconnectAttempts := by
  unfold disconnect
  cases hw : w.svc.ws with
  | none => exact ⟨[], by simp, by rfl, Or.inl rfl, rfl⟩
  | some h => exact ⟨_, rfl, by rfl, Or.inr rfl, rfl⟩

/-- The `onclose` handler schedules one timer and increments the counter, or
schedules none and keeps it; the maximum stays. -/
theorem onclose_counter (w : World) :
    ∃ es, (onclose w).log = w.log ++ es
      ∧ (es.filter Effect.isSetTimeout).length + w.svc.reconnectAttempts
          = (onclose w).svc.reconnectAttempts
      ∧ ((onclose w).svc.reconnectAttempts ≤ w.svc.maxReconnectAttempts
          ∨ (onclose w).svc.reconnectAttempts = w.svc.reconnectAttempts)
      ∧ (onclose w).svc.maxReconnectAttempts = w.svc.maxReconnectAttempts := by
  unfold onclose
  by_cases hc : w.svc.reconnectAttempts < w.svc.maxReconnectAttempts
      ∧ truthy w.svc.sessionId = true
  · rw [handleReconnect_schedules _ (by simpa [World.emit] using hc.1)
      (by simpa [World.emit] using hc.2)]
    refine ⟨_, by simp only [World.emit, List.append_assoc]; rfl, ?_, ?_, by simp [World.emit]⟩
    · simp [World.emit, Effect.isSetTimeout]; omega
    · left; simp [World.emit]; omega
  · rw [handleReconnect_idle _ (by
      simp only [World.emit]
      by_cases hs : truthy w.svc.sessionId = true
      · right; exact Nat.not_lt.mp (fun hlt => hc ⟨hlt, hs⟩)
      · left; simpa using hs)]
    exact ⟨[.consoleLog "[WebSocket] 連接關閉"], by simp [World.emit], by simp [World.emit, Effect.isSetTimeout],
      Or.inr (by simp [World.emit]), by simp [World.emit]⟩

/-- The `onmessage` handler, once the browser has run it: no timer is
scheduled and the service fields are untouched. -/
theorem onmessage_counter (data : FrameData) (w : World) :
    ∃ es, (runHandler (onmessage data w)).log = w.log ++ es
      ∧ es.filter Effect.isSetTimeout = []
      ∧ (runHandler (onmessage data w)).svc = w.svc := by
  cases data with
  | malformed text =>
    exact ⟨[.consoleError "[WebSocket] 解析訊息失敗:"],
      by simp [onmessage, tryCatch, jsonParse, runHandler, World.emit],
      by rfl, by simp [onmessage, tryCatch, jsonParse, runHandler, World.emit]⟩
  | wellFormed v =>
    obtain ⟨es, h, _, b, _, _⟩ :=
      notifyListeners_spec v (w.emit (.consoleLog "[WebSocket] 收到訊息:"))
    have hm : onmessage (.wellFormed v) w
        = ({ (w.emit (.consoleLog "[WebSocket] 收到訊息:")) with
              page := (w.emit (.consoleLog "[WebSocket] 收到訊息:")).svc.listeners.foldl
                (fun p l => (l.call v p).1) (w.emit (.consoleLog "[WebSocket] 收到訊息:")).page,
              log := (w.emit (.consoleLog "[WebSocket] 收到訊息:")).log ++ es },
            .normal) := by
      unfold onmessage tryCatch
      simp only [jsonParse]
      rw [h]
    rw [hm]
    refine ⟨.consoleLog "[WebSocket] 收到訊息:" :: es, ?_, ?_, ?_⟩
    · simp [runHandler, World.emit]
    · simp [List.filter_cons, Effect.isSetTimeout, b]
    · simp [runHandler, World.emit]

/-- The `onopen` handler, once the browser has run it: the counter is 0 and
the maximum stays. -/
theorem onopen_counter (sid : Option String) (w : World) :
    (runHandler (onopen sid w)).svc.reconnectAttempts = 0
    ∧ (runHandler (onopen sid w)).svc.maxReconnectAttempts = w.svc.maxReconnectAttempts := by
  cases hw : w.svc.ws with
  | none => simp [onopen, hw, runHandler, World.emit]
  | some cur =>
    cases hs : w.sockets[cur]? with
    | none => simp [onopen, hw, wsSend, hs, runHandler, World.emit]
    | some s =>
      cases hr : s.readyState <;> simp [onopen, hw, wsSend, hs, hr, runHandler, World.emit]

/-- Every event keeps the maximum. -/
theorem apply_max (e : ChannelEvent) (w : World) :
    (e.apply w).svc.maxReconnectAttempts = w.svc.maxReconnectAttempts := by
  cases e with
  | connect sid t => obtain ⟨_, _, _, _, h⟩ := connect_counter sid t w; exact h
  | disconnect => obtain ⟨_, _, _, _, h⟩ := disconnect_counter w; exact h
  | «open» h =>
    simp only [ChannelEvent.apply, fireOpen]
    cases hs : w.sockets[h]? with
    | none => rfl
    | some s =>
      by_cases hc : s.readyState = .connecting
      · simp only [hc, if_true]
        rw [(onopen_counter _ _).2]
      · simp [hc]
  | message h d =>
    simp only [ChannelEvent.apply, fireMessage]
    cases hs : w.sockets[h]? with
    | none => rfl
    | some s =>
      by_cases hc : s.readyState = .open
      · obtain ⟨_, _, _, h3⟩ := onmessage_counter d w
        simp only [hc, if_true]
        rw [h3]
      · simp [hc]
  | error h =>
    simp only [ChannelEvent.apply, fireError]
    cases hs : w.sockets[h]? <;> simp [onerror, World.emit]
  | close h =>
    simp only [ChannelEvent.apply, fireClose]
    cases hs : w.sockets[h]? with
    | none => rfl
    | some s =>
      by_cases hc : s.readyState = .closed
      · simp [hc]
      · simp only [hc, if_false]
        obtain ⟨_, _, _, _, h4⟩ := onclose_counter
          { w with sockets := modifyAt (fun t => { t with readyState := .closed }) h w.sockets }
        rw [h4]
  | timer k t => exact (fireTimeout_svc k t w).2.1

/-- Every event keeps the counter within the maximum. -/
theorem apply_le (e : ChannelEvent) (w : World)
    (hle : w.svc.reconnectAttempts ≤ w.svc.maxReconnectAttempts) :
    (e.apply w).svc.reconnectAttempts ≤ w.svc.maxReconnectAttempts := by
  cases e with
  | connect sid t =>
    obtain ⟨_, _, _, h, _⟩ := connect_counter sid t w
    show (connect sid t w).svc.reconnectAttempts ≤ _
    rw [h]; exact hle
  | disconnect =>
    obtain ⟨_, _, _, h, _⟩ := disconnect_counter w
    show (disconnect w).svc.reconnectAttempts ≤ _
    rcases h with h | h
    · rw [h]; exact hle
    · rw [h]
  | «open» h =>
    simp only [ChannelEvent.apply, fireOpen]
    cases hs : w.sockets[h]? with
    | none => exact hle
    | some s =>
      by_cases hc : s.readyState = .connecting
      · simp only [hc, if_true]
        rw [(onopen_counter _ _).1]
        exact Nat.zero_le _
      · simpa [hc] using hle
  | message h d =>
    simp only [ChannelEvent.apply, fireMessage]
    cases hs : w.sockets[h]? with
    | none => exact hle
    | some s =>
      by_cases hc : s.readyState = .open
      · obtain ⟨_, _, _, h3⟩ := onmessage_counter d w
        simp only [hc, if_true]
        rw [h3]
        exact hle
      · simpa [hc] using hle
  | error h =>
    simp only [ChannelEvent.apply, fireError]
    cases hs : w.sockets[h]? <;> simpa [onerror, World.emit] using hle
  | close h =>
    simp only [ChannelEvent.apply, fireClose]
    cases hs : w.sockets[h]? with
    | none => exact hle
    | some s =>
      by_cases hc : s.readyState = .closed
      · simpa [hc] using hle
      · simp only [hc, if_false]
        obtain ⟨_, _, _, h3, _⟩ := onclose_counter
          { w with sockets := modifyAt (fun t => { t with readyState := .closed }) h w.sockets }
        rcases h3 with h3 | h3
        · exact h3
        · rw [h3]; exact hle
  | timer k t =>
    show (fireTimeout k t w).svc.reconnectAttempts ≤ _
    rw [(fireTimeout_svc k t w).1]; exact hle

/-- An event other than a successful open: the timers it schedules are paid
for by the attempt counter. -/
theorem apply_scheduled (e : ChannelEvent) (w : World) (hopen : e.isOpen = false)
    (hle : w.svc.reconnectAttempts ≤ w.svc.maxReconnectAttempts) :
    ∃ es, (e.apply w).log = w.log ++ es
      ∧ (es.filter Effect.isSetTimeout).length + w.svc.reconnectAttempts
          ≤ (e.apply w).svc.reconnectAttempts := by
  cases e with
  | connect sid t =>
    obtain ⟨es, h1, h2, h3, _⟩ := connect_counter sid t w
    exact ⟨es, h1, by show _ ≤ (connect sid t w).svc.reconnectAttempts; rw [h2, h3]; simp⟩
  | disconnect =>
    obtain ⟨es, h1, h2, h3, _⟩ := disconnect_counter w
    refine ⟨es, h1, ?_⟩
    show _ ≤ (disconnect w).svc.reconnectAttempts
    rw [h2]
    rcases h3 with h3 | h3 <;> rw [h3] <;> simp
    exact hle
  | «open» h => simp [ChannelEvent.isOpen] at hopen
  | message h d =>
    simp only [ChannelEvent.apply, fireMessage]
    cases hs : w.sockets[h]? with
    | none => exact ⟨[], by simp, by simp⟩
    | some s =>
      by_cases hc : s.readyState = .open
      · obtain ⟨es, h1, h2, h3⟩ := onmessage_counter d w
        simp only [hc, if_true]
        exact ⟨es, h1, by rw [h2, h3]; simp⟩
      · simp only [hc, if_false]
        exact ⟨[], by simp, by simp⟩
  | error h =>
    simp only [ChannelEvent.apply, fireError]
    cases hs : w.sockets[h]? with
    | none => exact ⟨[], by simp, by simp⟩
    | some s => exact ⟨[.consoleError "[WebSocket] 錯誤:"], by simp [onerror, World.emit],
        by simp [onerror, World.emit, Effect.isSetTimeout]⟩
  | close h =>
    simp only [ChannelEvent.apply, fireClose]
    cases hs : w.sockets[h]? with
    | none => exact ⟨[], by simp, by simp⟩
    | some s =>
      by_cases hc : s.readyState = .closed
      · simp only [hc, if_true]
        exact ⟨[], by simp, by simp⟩
      · simp only [hc, if_false]
        obtain ⟨es, h1, h2, _, _⟩ := onclose_counter
          { w with sockets := modifyAt (fun t => { t with readyState := .closed }) h w.sockets }
        exact ⟨es, h1, by rw [← h2]⟩
  | timer k t =>
    show ∃ es, (fireTimeout k t w).log = w.log ++ es ∧ _ ≤ (fireTimeout k t w).svc.reconnectAttempts
    rw [(fireTimeout_svc k t w).1]
    unfold fireTimeout
    by_cases hk : k < w.timeouts.length
    · simp only [hk, if_true]
      obtain ⟨es, h1, h2, _, _⟩ := connect_counter w.svc.sessionId t
        { w with timeouts := w.timeouts.eraseIdx k }
      exact ⟨es, h1, by rw [h2]; simp⟩
    · simp only [hk, if_false]
      exact ⟨[], by simp, by simp⟩

/-- Along every run the maximum stays and the counter stays within it. -/
theorem runChannel_counter (es : List ChannelEvent) :
    ∀ w : World, w.svc.reconnectAttempts ≤ w.svc.maxReconnectAttempts →
      (runChannel es w).svc.maxReconnectAttempts = w.svc.maxReconnectAttempts
      ∧ (runChannel es w).svc.reconnectAttempts ≤ w.svc.maxReconnectAttempts := by
  induction es with
  | nil => intro w hle; exact ⟨rfl, hle⟩
  | cons e rest ih =>
    intro w hle
    have hm := apply_max e w
    have hl := apply_le e w hle
    obtain ⟨h1, h2⟩ := ih (e.apply w) (by rw [hm]; exact hl)
    simp only [runChannel]
    rw [h1, hm]
    exact ⟨rfl, by rw [hm] at h2; exact h2⟩

/-- Along a run without a successful open, the reconnect timers scheduled are
paid for by the attempt counter. -/
theorem runChannel_scheduled (es : List ChannelEvent) :
    ∀ w : World, (∀ e ∈ es, e.isOpen = false) →
      w.svc.reconnectAttempts ≤ w.svc.maxReconnectAttempts →
      scheduledSince w (runChannel es w) + w.svc.reconnectAttempts
        ≤ (runChannel es w).svc.reconnectAttempts
      ∧ ∃ fx, (runChannel es w).log = w.log ++ fx := by
  induction es with
  | nil =>
    intro w _ _
    exact ⟨by simp [runChannel, scheduledSince, effectsSince], [], by simp [runChannel]⟩
  | cons e rest ih =>
    intro w hno hle
    have hm := apply_max e w
    have hl := apply_le e w hle
    obtain ⟨fx1, l1, c1⟩ := apply_scheduled e w (hno e (List.mem_cons_self _ _)) hle
    obtain ⟨c2, fx2, l2⟩ := ih (e.apply w) (fun x hx => hno x (List.mem_cons_of_mem _ hx))
      (by rw [hm]; exact hl)
    simp only [runChannel]
    refine ⟨?_, fx1 ++ fx2, by rw [l2, l1, List.append_assoc]⟩
    have e1 : scheduledSince w (runChannel rest (e.apply w))
        = (fx1.filter Effect.isSetTimeout).length + (fx2.filter Effect.isSetTimeout).length := by
      unfold scheduledSince
      rw [effectsSince_append w _ (fx1 ++ fx2) (by rw [l2, l1, List.append_assoc])]
      simp [List.filter_append]
    have e2 : scheduledSince (e.apply w) (runChannel rest (e.apply w))
        = (fx2.filter Effect.isSetTimeout).length := by
      unfold scheduledSince
      rw [effectsSince_append _ _ fx2 l2]
    rw [e1]
    rw [e2] at c2
    omega

/-- One closure followed by its retry: the bound session id and the maximum
stay, and the counter has moved one step towards the maximum if a session id
is bound. -/
theorem closeThenRetry_step (w : World) :
    (closeThenRetry w).svc.sessionId = w.svc.sessionId
    ∧ (closeThenRetry w).svc.maxReconnectAttempts = w.svc.maxReconnectAttempts
    ∧ (truthy w.svc.sessionId = true →
        min (w.svc.reconnectAttempts + 1) w.svc.maxReconnectAttempts
          ≤ (closeThenRetry w).svc.reconnectAttempts) := by
  by_cases hc : w.svc.reconnectAttempts < w.svc.maxReconnectAttempts
      ∧ truthy w.svc.sessionId = true
  · obtain ⟨h1, h2, h3⟩ := closeThenRetry_svc w hc.1 hc.2
    exact ⟨h3, h2, fun _ => by rw [h1]; exact Nat.min_le_left _ _⟩
  · obtain ⟨h1, h2, h3⟩ := fireTimeout_svc 0 false (onclose w)
    have hidle : onclose w = w.emit (.consoleLog "[WebSocket] 連接關閉") := by
      unfold onclose
      apply handleReconnect_idle
      simp only [World.emit]
      by_cases hs : truthy w.svc.sessionId = true
      · right; exact Nat.not_lt.mp (fun hlt => hc ⟨hlt, hs⟩)
      · left; simpa using hs
    unfold closeThenRetry
    rw [h1, h2, h3, hidle]
    refine ⟨rfl, rfl, fun hs => ?_⟩
    have : w.svc.maxReconnectAttempts ≤ w.svc.reconnectAttempts :=
      Nat.not_lt.mp (fun hlt => hc ⟨hlt, hs⟩)
    simp only [World.emit]
    exact le_trans (Nat.min_le_right _ _) this

/-- After `n` closures each followed by its retry, the counter has moved `n`
steps towards the maximum if a session id is bound. -/
theorem closeThenRetry_reaches (n : Nat) (w : World) :
    (closeThenRetry^[n] w).svc.sessionId = w.svc.sessionId
    ∧ (closeThenRetry^[n] w).svc.maxReconnectAttempts = w.svc.maxReconnectAttempts
    ∧ (truthy w.svc.sessionId = true →
        min (w.svc.reconnectAttempts + n) w.svc.maxReconnectAttempts
          ≤ (closeThenRetry^[n] w).svc.reconnectAttempts) := by
  induction n with
  | zero => exact ⟨rfl, rfl, fun _ => by simp⟩
  | succ n ih =>
    obtain ⟨h1, h2, h3⟩ := ih
    obtain ⟨g1, g2, g3⟩ := closeThenRetry_step (closeThenRetry^[n] w)
    rw [Function.iterate_succ_apply', g1, g2, h1, h2]
    refine ⟨rfl, rfl, fun hs => ?_⟩
    have a := h3 hs
    have b := g3 (by rw [h1]; exact hs)
    rw [h2] at b
    omega

/-- A closure handled when no session id is bound or the counter has reached
the maximum schedules no reconnect. -/
theorem onclose_idle (w : World)
    (h : truthy w.svc.sessionId = false ∨ w.svc.maxReconnectAttempts ≤ w.svc.reconnectAttempts) :
    scheduledSince w (onclose w) = 0 := by
  unfold onclose
  rw [handleReconnect_idle _ (by simpa [World.emit] using h)]
  simp [scheduledSince, effectsSince, World.emit, Effect.isSetTimeout]

/-! ## C4: reconnect attempts are bounded -/

/-- C4. In every state reached from the freshly constructed service by calls
of `connect` and `disconnect`, socket events (open, message, error, close)
and reconnect timers, `0 <= reconnectAttempts <= maxReconnectAttempts = 5`.
From such a state, after 5 consecutive closures, each followed by its retry
and none by a successful open, a further closure schedules no reconnect.
And along every continuation of such a state without a successful open, at
most 5 reconnects are scheduled. -/
theorem reconnectAttempts_bounded (pre es : List ChannelEvent) :
    (0 ≤ (runChannel pre World.initial).svc.reconnectAttempts
      ∧ (runChannel pre World.initial).svc.reconnectAttempts ≤ 5
      ∧ (runChannel pre World.initial).svc.maxReconnectAttempts = 5)
    ∧ scheduledSince (closeThenRetry^[5] (runChannel pre World.initial))
        (onclose (closeThenRetry^[5] (runChannel pre World.initial))) = 0
    ∧ ((∀ e ∈ es, e.isOpen = false) →
        scheduledSince (runChannel pre World.initial)
          (runChannel es (runChannel pre World.initial)) ≤ 5) := by
  obtain ⟨hmax, hle⟩ := runChannel_counter pre World.initial (by decide)
  have hmax5 : (runChannel pre World.initial).svc.maxReconnectAttempts = 5 := by
    rw [hmax]; rfl
  have hle5 : (runChannel pre World.initial).svc.reconnectAttempts ≤ 5 := by
    have : World.initial.svc.maxReconnectAttempts = 5 := rfl
    omega
  refine ⟨⟨Nat.zero_le _, hle5, hmax5⟩, ?_, ?_⟩
  · obtain ⟨h1, h2, h3⟩ := closeThenRetry_reaches 5 (runChannel pre World.initial)
    apply onclose_idle
    by_cases hs : truthy (runChannel pre World.initial).svc.sessionId = true
    · right
      have := h3 hs
      rw [h2]
      omega
    · left
      rw [h1]
      simpa using hs
  · intro hno
    obtain ⟨hb, _⟩ := runChannel_scheduled es (runChannel pre World.initial) hno
      (by rw [hmax5]; exact hle5)
    obtain ⟨gm, gl⟩ := runChannel_counter es (runChannel pre World.initial)
      (by rw [hmax5]; exact hle5)
    omega

/-- C4, witness: session `"abc123"` connects and opens; then its connection
closes and every retry closes again without opening, seven closures in all.
Exactly 5 reconnects are scheduled. -/
theorem reconnectAttempts_bounded_witness :
    scheduledSince
      (runChannel [ChannelEvent.connect (some "abc123") false, ChannelEvent.open 0] World.initial)
      (runChannel
        [ChannelEvent.close 0, ChannelEvent.timer 0 false, ChannelEvent.close 1,
          ChannelEvent.timer 0 false, ChannelEvent.close 2, ChannelEvent.timer 0 false,
          ChannelEvent.close 3, ChannelEvent.timer 0 false, ChannelEvent.close 4,
          ChannelEvent.timer 0 false, ChannelEvent.close 5, ChannelEvent.timer 0 false,
          ChannelEvent.close 6]
        (runChannel [ChannelEvent.connect (some "abc123") false, ChannelEvent.open 0]
          World.initial)) ≤ 5
    ∧ scheduledSince
      (runChannel [ChannelEvent.connect (some "abc123") false, ChannelEvent.open 0] World.initial)
      (runChannel
        [ChannelEvent.close 0, ChannelEvent.timer 0 false, ChannelEvent.close 1,
          ChannelEvent.timer 0 false, ChannelEvent.close 2, ChannelEvent.timer 0 false,
          ChannelEvent.close 3, ChannelEvent.timer 0 false, ChannelEvent.close 4,
          ChannelEvent.timer 0 false, ChannelEvent.close 5, ChannelEvent.timer 0 false,
          ChannelEvent.close 6]
        (runChannel [ChannelEvent.connect (some "abc123") false, ChannelEvent.open 0]
          World.initial)) = 5 :=
  ⟨(reconnectAttempts_bounded
      [ChannelEvent.connect (some "abc123") false, ChannelEvent.open 0]
      [ChannelEvent.close 0, ChannelEvent.timer 0 false, ChannelEvent.close 1,
        ChannelEvent.timer 0 false, ChannelEvent.close 2, ChannelEvent.timer 0 false,
        ChannelEvent.close 3, ChannelEvent.timer 0 false, ChannelEvent.close 4,
        ChannelEvent.timer 0 false, ChannelEvent.close 5, ChannelEvent.timer 0 false,
        ChannelEvent.close 6]).2.2 (by decide),
   by decide⟩

/-! ## C6: `connect` while a connection is open -/

/-- A well-formed frame handled by `onmessage`: the message is logged, then
every registered listener is called once, in order, with the parsed value. -/
theorem onmessage_wellFormed (v : Json) (w : World) :
    ∃ es, runHandler (onmessage (.wellFormed v) w)
        = { w with page := w.svc.listeners.foldl (fun p l => (l.call v p).1) w.page,
                   log := w.log ++ (.consoleLog "[WebSocket] 收到訊息:" :: es) }
      ∧ es.filterMap Effect.listenerCall? = w.svc.listeners.map (fun l => (l.ident, v)) := by
  obtain ⟨es, h, a, _, _, _⟩ :=
    notifyListeners_spec v (w.emit (.consoleLog "[WebSocket] 收到訊息:"))
  refine ⟨es, ?_, a⟩
  unfold onmessage tryCatch
  simp only [jsonParse]
  rw [h]
  simp [runHandler, World.emit]

/-- C6, counterexample. In the active session `"abc123"` (socket `0` open),
`connect("def456")` calls `close()` on nothing: socket `0` stays open next to
the new socket `1`, and a feedback frame arriving on socket `0` afterwards is
still dispatched to the registered listener, which sets the feedback state. -/
theorem connect_leaves_old_connection_open :
    (activeWorld "abc123").svc.ws = some 0
    ∧ (activeWorld "abc123").svc.sessionId = some "abc123"
    ∧ (activeWorld "abc123").sockets.map (fun s => s.readyState) = [ReadyState.open]
    ∧ (effectsSince (activeWorld "abc123")
          (connect (some "def456") false (activeWorld "abc123"))).filter Effect.isWsClose = []
    ∧ (connect (some "def456") false (activeWorld "abc123")).sockets.map (fun s => s.readyState)
        = [ReadyState.open, ReadyState.connecting]
    ∧ (effectsSince (connect (some "def456") false (activeWorld "abc123"))
          (fireMessage 0
            (.wellFormed (.obj [("type", .str "pose_feedback"), ("data", .str "hold steady")]))
            (connect (some "def456") false (activeWorld "abc123")))).filterMap
        Effect.listenerCall?
        = [(0, Json.obj [("type", .str "pose_feedback"), ("data", .str "hold steady")])]
    ∧ (fireMessage 0
          (.wellFormed (.obj [("type", .str "pose_feedback"), ("data", .str "hold steady")]))
          (connect (some "def456") false (activeWorld "abc123"))).page.feedback
        = some (Json.str "hold steady") := by
  refine ⟨by rfl, by rfl, by rfl, by rfl, by rfl, by rfl, by rfl⟩

/-- C6, amended. For every state in which `ws` is an open connection `h`,
`connect(b)` binds session id `b` and closes nothing: whether or not the
constructor throws, no `close()` is called and connection `h` is still open
with its handlers; when the constructor does not throw, `ws` becomes a new
connecting socket bound to `b`, appended next to the old ones, so two
connections are live; and every well-formed frame arriving on the old
connection `h` is still dispatched to every registered listener, in order. -/
theorem connect_replaces_without_closing (w : World) (h : Nat) (s : Socket)
    (b : Option String) (hws : w.svc.ws = some h) (hs : w.sockets[h]? = some s)
    (hopen : s.readyState = ReadyState.open) :
    (∀ t, (connect b t w).svc.sessionId = b
        ∧ (effectsSince w (connect b t w)).filter Effect.isWsClose = []
        ∧ (connect b t w).sockets[h]? = some s)
    ∧ (connect b false w).svc.ws = some w.sockets.length
    ∧ (connect b false w).sockets
        = w.sockets ++ [{ readyState := .connecting, boundId := b, sent := [] }]
    ∧ (connect b true w).svc.ws = some h
    ∧ (connect b true w).sockets = w.sockets
    ∧ (∀ v, (effectsSince (connect b false w)
          (fireMessage h (.wellFormed v) (connect b false w))).filterMap Effect.listenerCall?
        = w.svc.listeners.map (fun l => (l.ident, v))) := by
  have hlt : h < w.sockets.length := by
    rcases Nat.lt_or_ge h w.sockets.length with hl | hl
    · exact hl
    · rw [List.getElem?_eq_none hl] at hs; cases hs
  have hold : (connect b false w).sockets[h]? = some s := by
    simp only [connect, Bool.false_eq_true, if_false]
    rw [List.getElem?_append_left hlt]
    exact hs
  refine ⟨?_, by simp [connect], by simp [connect], ?_, by simp [connect, World.emit], ?_⟩
  · intro t
    cases t
    · exact ⟨by simp [connect], by simp [connect, effectsSince, Effect.isWsClose], hold⟩
    · exact ⟨by simp [connect, World.emit],
        by simp [connect, World.emit, effectsSince, Effect.isWsClose],
        by simpa [connect, World.emit] using hs⟩
  · simpa [connect, World.emit] using hws
  · intro v
    obtain ⟨es, he, hcalls⟩ := onmessage_wellFormed v (connect b false w)
    have hf : fireMessage h (.wellFormed v) (connect b false w)
        = runHandler (onmessage (.wellFormed v) (connect b false w)) := by
      unfold fireMessage
      rw [hold]
      simp [hopen]
    rw [hf, he, effectsSince_append _ _ _ rfl]
    simp only [List.filterMap_cons, Effect.listenerCall?, hcalls]
    simp [connect]

/-- C6, witness: the active session `"abc123"`, then `connect("def456")`. -/
theorem connect_replaces_without_closing_witness :
    (∀ t, (connect (some "def456") t (activeWorld "abc123")).svc.sessionId = some "def456"
        ∧ (effectsSince (activeWorld "abc123")
            (connect (some "def456") t (activeWorld "abc123"))).filter Effect.isWsClose = []
        ∧ (connect (some "def456") t (activeWorld "abc123")).sockets[0]?
            = some { readyState := .open, boundId := some "abc123",
                     sent := [.obj [("session_id", .str "abc123")]] })
    ∧ (connect (some "def456") false (activeWorld "abc123")).svc.ws
        = some (activeWorld "abc123").sockets.length
    ∧ (connect (some "def456") false (activeWorld "abc123")).sockets
        = (activeWorld "abc123").sockets
          ++ [{ readyState := .connecting, boundId := some "def456", sent := [] }]
    ∧ (connect (some "def456") true (activeWorld "abc123")).svc.ws = some 0
    ∧ (connect (some "def456") true (activeWorld "abc123")).sockets
        = (activeWorld "abc123").sockets
    ∧ (∀ v, (effectsSince (connect (some "def456") false (activeWorld "abc123"))
          (fireMessage 0 (.wellFormed v)
            (connect (some "def456") false (activeWorld "abc123")))).filterMap
          Effect.listenerCall?
        = (activeWorld "abc123").svc.listeners.map (fun l => (l.ident, v))) :=
  connect_replaces_without_closing (activeWorld "abc123") 0
    { readyState := .open, boundId := some "abc123",
      sent := [.obj [("session_id", .str "abc123")]] }
    (some "def456") (by rfl) (by rfl) (by rfl)

/-! ## C7: `handleEndSession` when the finalize call fails -/

/-- The forwarding decision of `handlePoseResults` reads only the session id,
the recording flag and the stored `lastTime`. -/
theorem forwards_eq (now : Int) (landmarks : Json) (w : World) :
    forwards now landmarks w
      = (truthy w.page.sessionId && w.page.isRecording
          && (!truthyNum w.page.lastTime || decide (now - w.page.lastTime.getD 0 > 200))) := by
  by_cases hs : truthy w.page.sessionId = true
  · by_cases hr : w.page.isRecording = true
    · rw [(handlePoseResults_active now landmarks w hs hr).1, hs, hr]
      simp
    · have hn : handlePoseResults now landmarks w = w := by
        unfold handlePoseResults
        simp [hr]
      unfold forwards
      rw [hn, effectsSince_self]
      simp [hr]
  · have hn : handlePoseResults now landmarks w = w := by
      unfold handlePoseResults
      simp [hs]
    unfold forwards
    rw [hn, effectsSince_self]
    simp [hs]

/-- C7, counterexample. In the active session `"abc123"`, `handleEndSession`
whose finalize call fails calls `close()` on nothing and leaves `ws` set and
socket `0` open, leaves the elapsed-time interval `1` running (a later tick
still increments `duration`), and leaves the session recording, so the next
landmark sample is forwarded. -/
theorem failed_end_keeps_session_active :
    truthy (activeWorld "abc123").page.sessionId = true
    ∧ (activeWorld "abc123").page.isRecording = true
    ∧ (handleEndSession false (activeWorld "abc123")).svc.ws = some 0
    ∧ (handleEndSession false (activeWorld "abc123")).sockets.map (fun s => s.readyState)
        = [ReadyState.open]
    ∧ (effectsSince (activeWorld "abc123")
          (handleEndSession false (activeWorld "abc123"))).filter Effect.isWsClose = []
    ∧ (handleEndSession false (activeWorld "abc123")).intervals = [1]
    ∧ (tick 1 (handleEndSession false (activeWorld "abc123"))).page.duration
        = (handleEndSession false (activeWorld "abc123")).page.duration + 1
    ∧ forwards 1000 Json.null (handleEndSession false (activeWorld "abc123")) = true
    ∧ (effectsSince (handleEndSession false (activeWorld "abc123"))
          (handlePoseResults 1000 Json.null
            (handleEndSession false (activeWorld "abc123")))).filter Effect.isAnalyzePose
        = [Effect.analyzePose "abc123" Json.null none] := by
  refine ⟨by decide, by rfl, by rfl, by rfl, by rfl, by rfl, by rfl, by decide, by rfl⟩

/-- C7, amended. When `handleEndSession` is called with a session id held and
the finalize call fails, then after the call resolves: the channel client,
its sockets and its pending timers are as before (nothing was disconnected
or closed); the elapsed-time intervals are as before (nothing was cleared);
of the page state only the loading flag was written, and it is false, so the
session id and the recording flag are as before; and since those writes
re-rendered the page, the `handlePoseResults` in force is a new function
object without `lastTime`. Hence the next landmark sample is forwarded at
once, whatever its time, exactly when the session is recording. What was
logged is the finalize request, an error line and the failure alert. -/
theorem failed_end_leaves_session_running (w : World) (sid : String)
    (hsid : w.page.sessionId = some sid) (ht : truthy (some sid) = true) :
    (handleEndSession false w).svc = w.svc
    ∧ (handleEndSession false w).sockets = w.sockets
    ∧ (handleEndSession false w).timeouts = w.timeouts
    ∧ (handleEndSession false w).intervals = w.intervals
    ∧ (handleEndSession false w).page = { w.page with isLoading := false, lastTime := none }
    ∧ effectsSince w (handleEndSession false w)
        = [Effect.mergeAndExport sid, Effect.consoleError "結束練習失敗:",
           Effect.alert "結束練習時發生錯誤"]
    ∧ (∀ now landmarks, forwards now landmarks (handleEndSession false w)
        = w.page.isRecording) := by
  have he : handleEndSession false w = { w with
      page := { w.page with isLoading := false, lastTime := none }
      log := w.log ++ [Effect.mergeAndExport sid, Effect.consoleError "結束練習失敗:",
                       Effect.alert "結束練習時發生錯誤"] } := by
    unfold handleEndSession handleEndSessionBegin
    simp [hsid, ht, handleEndSessionResume]
  refine ⟨by rw [he], by rw [he], by rw [he], by rw [he], by rw [he], ?_, ?_⟩
  · rw [effectsSince_append w _ _ (by rw [he])]
  · intro now landmarks
    rw [forwards_eq, he]
    simp [hsid, ht, truthyNum]

/-- C7, witness: the active session `"abc123"` after a forward at 1000 ms; the
failed end leaves it recording with a fresh throttle, so the sample at
1050 ms is forwarded. -/
theorem failed_end_leaves_session_running_witness :
    (handleEndSession false
        (handlePoseResults 1000 Json.null (activeWorld "abc123"))).svc
      = (handlePoseResults 1000 Json.null (activeWorld "abc123")).svc
    ∧ (handleEndSession false
        (handlePoseResults 1000 Json.null (activeWorld "abc123"))).sockets
      = (handlePoseResults 1000 Json.null (activeWorld "abc123")).sockets
    ∧ (handleEndSession false
        (handlePoseResults 1000 Json.null (activeWorld "abc123"))).timeouts
      = (handlePoseResults 1000 Json.null (activeWorld "abc123")).timeouts
    ∧ (handleEndSession false
        (handlePoseResults 1000 Json.null (activeWorld "abc123"))).intervals
      = (handlePoseResults 1000 Json.null (activeWorld "abc123")).intervals
    ∧ (handleEndSession false
        (handlePoseResults 1000 Json.null (activeWorld "abc123"))).page
      = { (handlePoseResults 1000 Json.null (activeWorld "abc123")).page with
          isLoading := false, lastTime := none }
    ∧ effectsSince (handlePoseResults 1000 Json.null (activeWorld "abc123"))
        (handleEndSession false (handlePoseResults 1000 Json.null (activeWorld "abc123")))
      = [Effect.mergeAndExport "abc123", Effect.consoleError "結束練習失敗:",
         Effect.alert "結束練習時發生錯誤"]
    ∧ (∀ now landmarks, forwards now landmarks
        (handleEndSession false (handlePoseResults 1000 Json.null (activeWorld "abc123")))
        = (handlePoseResults 1000 Json.null (activeWorld "abc123")).page.isRecording) :=
  failed_end_leaves_session_running (handlePoseResults 1000 Json.null (activeWorld "abc123"))
    "abc123" (by rfl) (by decide)

/-! ## C11: feedback routing -/

/-- What a frame arriving on socket `h` makes the listeners see: every
registered listener once, in order, when the socket is open and the frame
parses; nothing when the socket is not open. -/
theorem fireMessage_wellFormed_calls (h : Nat) (v : Json) (w : World) :
    (effectsSince w (fireMessage h (.wellFormed v) w)).filterMap Effect.listenerCall?
      = (match w.sockets[h]? with
          | some s => if s.readyState = .open then w.svc.listeners.map (fun l => (l.ident, v))
                      else []
          | none => []) := by
  unfold fireMessage
  cases hs : w.sockets[h]? with
  | none => simp [effectsSince]
  | some s =>
    by_cases ho : s.readyState = .open
    · obtain ⟨es, he, hcalls⟩ := onmessage_wellFormed v w
      simp only [ho, if_true]
      rw [he, effectsSince_append _ _ _ rfl]
      simp only [List.filterMap_cons, Effect.listenerCall?, hcalls]
    · simp [ho, effectsSince]

/-- C11. For every parsed channel message `m` and page state: if `m.type` is
the string `"pose_feedback"`, `handleWebSocketMessage` returns normally and
the feedback state becomes exactly `m.data`, every other piece of React
state and `timerRef` staying as it was (the render that follows a changed
value leaves the `handlePoseResults` in force without `lastTime`); if
`m.type` is anything else (absent, another string, not a string, or
unreadable because `m` is `null`), the page, feedback included, is
unchanged. -/
theorem handleWebSocketMessage_routes (m : Json) (p : Page) :
    (m.prop "type" = .ok (some (.str "pose_feedback")) →
      ∃ d, m.prop "data" = .ok d
        ∧ handleWebSocketMessage m p
            = ({ p with feedback := d
                        lastTime := if sameValue p.feedback d then p.lastTime else none },
               none))
    ∧ (m.prop "type" ≠ .ok (some (.str "pose_feedback")) →
        (handleWebSocketMessage m p).1 = p) := by
  constructor
  · intro ht
    cases m with
    | obj fields =>
      refine ⟨fields.lookup "data", rfl, ?_⟩
      unfold handleWebSocketMessage
      rw [ht]
      cases hsv : sameValue p.feedback (List.lookup "data" fields) <;>
        simp [Json.prop, hsv]
    | null => simp [Json.prop] at ht
    | bool b => simp [Json.prop] at ht
    | num n => simp [Json.prop] at ht
    | str s => simp [Json.prop] at ht
    | arr items => simp [Json.prop] at ht
  · intro hne
    unfold handleWebSocketMessage
    split
    · rfl
    · rename_i heq
      exact absurd heq hne
    · rfl

/-- C11, witness: the Tree Pose frame sets the feedback state to its payload,
fields preserved; the frame of type `"unknown"` leaves the page as it was.
Delivered on the open socket of session `"abc123"`, the first reaches the one
registered listener once and the feedback state is its payload; the second
leaves the feedback state null. -/
theorem handleWebSocketMessage_routes_witness :
    (∃ d, treePoseMessage.prop "data" = .ok d
        ∧ handleWebSocketMessage treePoseMessage Page.initial
            = ({ Page.initial with
                  feedback := d
                  lastTime := if sameValue Page.initial.feedback d
                    then Page.initial.lastTime else none }, none))
    ∧ (handleWebSocketMessage unknownMessage Page.initial).1 = Page.initial
    ∧ (handleWebSocketMessage treePoseMessage Page.initial).1.feedback = some treePoseData
    ∧ (effectsSince (activeWorld "abc123")
          (fireMessage 0 (.wellFormed treePoseMessage) (activeWorld "abc123"))).filterMap
        Effect.listenerCall? = [(0, treePoseMessage)]
    ∧ (fireMessage 0 (.wellFormed treePoseMessage) (activeWorld "abc123")).page.feedback
        = some treePoseData
    ∧ (fireMessage 0 (.wellFormed unknownMessage) (activeWorld "abc123")).page.feedback
        = none :=
  ⟨(handleWebSocketMessage_routes treePoseMessage Page.initial).1 (by rfl),
   (handleWebSocketMessage_routes unknownMessage Page.initial).2
     (by intro h; simp [unknownMessage, Json.prop, List.lookup] at h),
   by rfl, by rfl, by rfl, by rfl⟩

/-! ## C12: malformed frames -/

/-- C12. For every frame whose data does not parse as JSON, the `onmessage`
handler completes normally and only logs an error line: no listener is
called, nothing escapes to the browser, and the page, the channel state
(`ws`, `sessionId`, `reconnectAttempts`, `listeners`), the sockets and the
timers are unchanged, whichever socket the frame arrives on. A well-formed
frame arriving afterwards is dispatched exactly as it would have been
without the malformed one. -/
theorem malformed_frame_dropped (text : String) (h k : Nat) (v : Json) (w : World) :
    onmessage (.malformed text) w
        = (w.emit (.consoleError "[WebSocket] 解析訊息失敗:"), Completion.normal)
    ∧ (fireMessage h (.malformed text) w).svc = w.svc
    ∧ (fireMessage h (.malformed text) w).page = w.page
    ∧ (fireMessage h (.malformed text) w).sockets = w.sockets
    ∧ (fireMessage h (.malformed text) w).timeouts = w.timeouts
    ∧ (effectsSince w (fireMessage h (.malformed text) w)).filterMap Effect.listenerCall? = []
    ∧ (effectsSince w (fireMessage h (.malformed text) w)).filter Effect.isUncaught = []
    ∧ (effectsSince (fireMessage h (.malformed text) w)
          (fireMessage k (.wellFormed v) (fireMessage h (.malformed text) w))).filterMap
        Effect.listenerCall?
        = (effectsSince w (fireMessage k (.wellFormed v) w)).filterMap Effect.listenerCall?
    ∧ (fireMessage k (.wellFormed v) (fireMessage h (.malformed text) w)).page
        = (fireMessage k (.wellFormed v) w).page := by
  have hon : onmessage (.malformed text) w
      = (w.emit (.consoleError "[WebSocket] 解析訊息失敗:"), Completion.normal) := by
    simp [onmessage, tryCatch, jsonParse]
  have hfire : fireMessage h (.malformed text) w = w
      ∨ fireMessage h (.malformed text) w = w.emit (.consoleError "[WebSocket] 解析訊息失敗:") := by
    unfold fireMessage
    cases hs : w.sockets[h]? with
    | none => left; rfl
    | some s =>
      by_cases ho : s.readyState = .open
      · right; simp [ho, hon, runHandler]
      · left; simp [ho]
  have hpage : ∀ u : World, u = w ∨ u = w.emit (.consoleError "[WebSocket] 解析訊息失敗:") →
      (fireMessage k (.wellFormed v) u).page = (fireMessage k (.wellFormed v) w).page := by
    intro u hu
    rcases hu with hu | hu
    · rw [hu]
    · rw [hu]
      unfold fireMessage
      simp only [World.emit]
      cases hs : w.sockets[k]? with
      | none => rfl
      | some s =>
        by_cases ho : s.readyState = .open
        · obtain ⟨es1, he1, _⟩ := onmessage_wellFormed v w
          obtain ⟨es2, he2, _⟩ := onmessage_wellFormed v
            { w with log := w.log ++ [.consoleError "[WebSocket] 解析訊息失敗:"] }
          simp only [ho, if_true]
          rw [he1, he2]
        · simp [ho]
  refine ⟨hon, ?_, ?_, ?_, ?_, ?_, ?_, ?_, hpage _ hfire⟩
  · rcases hfire with hf | hf <;> simp [hf, World.emit]
  · rcases hfire with hf | hf <;> simp [hf, World.emit]
  · rcases hfire with hf | hf <;> simp [hf, World.emit]
  · rcases hfire with hf | hf <;> simp [hf, World.emit]
  · rcases hfire with hf | hf <;> rw [hf] <;> simp [effectsSince, World.emit, Effect.listenerCall?]
  · rcases hfire with hf | hf <;> rw [hf] <;> simp [effectsSince, World.emit, Effect.isUncaught]
  · rw [fireMessage_wellFormed_calls, fireMessage_wellFormed_calls]
    rcases hfire with hf | hf <;> simp [hf, World.emit]

/-! ## C13: the binding frame -/

/-- Modifying the element just appended. -/
theorem modifyAt_length_append {α : Type} (f : α → α) (x : α) (l : List α) :
    modifyAt f l.length (l ++ [x]) = l ++ [f x] := by
  induction l with
  | nil => rfl
  | cons a l ih => simp [modifyAt, ih]

/-- C13. For every state and every session id, after `connect(sessionId)`
(the constructor not throwing) and the open of the new connection: the
frames sent on that connection are exactly the binding message
`{session_id: sessionId}`, which carries the currently bound session id; it
is the only frame the open puts on the wire; and the reconnect attempt
counter is 0. Before the open nothing can precede it: a `send(message)`
issued while the connection is still connecting transmits nothing and only
warns, and the open that follows still sends the binding message first. -/
theorem binding_sent_on_open (sid : Option String) (message : Json) (w : World) :
    (fireOpen w.sockets.length (connect sid false w)).sockets[w.sockets.length]?
        = some { readyState := .open, boundId := sid,
                 sent := [.obj [("session_id", Json.ofId sid)]] }
    ∧ (fireOpen w.sockets.length (connect sid false w)).svc.sessionId = sid
    ∧ (fireOpen w.sockets.length (connect sid false w)).svc.ws = some w.sockets.length
    ∧ (fireOpen w.sockets.length (connect sid false w)).svc.reconnectAttempts = 0
    ∧ (effectsSince (connect sid false w)
          (fireOpen w.sockets.length (connect sid false w))).filter Effect.isWsSend
        = [Effect.wsSend w.sockets.length (.obj [("session_id", Json.ofId sid)])]
    ∧ (effectsSince (connect sid false w) (send message (connect sid false w))).filter
        Effect.isWsSend = []
    ∧ (send message (connect sid false w)).sockets = (connect sid false w).sockets
    ∧ (fireOpen w.sockets.length (send message (connect sid false w))).sockets[w.sockets.length]?
        = some { readyState := .open, boundId := sid,
                 sent := [.obj [("session_id", Json.ofId sid)]] } := by
  have hc : connect sid false w = { w with
      svc := { w.svc with sessionId := sid, ws := some w.sockets.length }
      sockets := w.sockets ++ [{ readyState := .connecting, boundId := sid, sent := [] }]
      log := w.log ++ [.newWebSocket w.sockets.length wsUrl] } := by
    simp [connect]
  have hsend : send message (connect sid false w)
      = (connect sid false w).emit (.consoleWarn "[WebSocket] 連接未開啟，無法發送訊息") := by
    rw [hc]
    simp [send]
  have hopen : ∀ u : World, u.sockets = w.sockets
        ++ [{ readyState := .connecting, boundId := sid, sent := [] }] →
      u.svc.ws = some w.sockets.length →
      fireOpen w.sockets.length u = { u with
        svc := { u.svc with reconnectAttempts := 0 }
        sockets := w.sockets ++ [{ readyState := .open, boundId := sid,
                                   sent := [.obj [("session_id", Json.ofId sid)]] }]
        log := u.log ++ [.consoleLog "[WebSocket] 已連接",
                         .wsSend w.sockets.length (.obj [("session_id", Json.ofId sid)])] } := by
    intro u hu hws
    unfold fireOpen
    rw [hu]
    simp only [List.getElem?_concat_length, if_true, modifyAt_length_append]
    simp [onopen, hws, wsSend, runHandler, modifyAt_length_append]
  have h1 := hopen (connect sid false w) (by rw [hc]) (by rw [hc])
  have h2 := hopen (send message (connect sid false w)) (by rw [hsend, hc]; rfl)
    (by rw [hsend, hc]; rfl)
  refine ⟨?_, ?_, ?_, ?_, ?_, ?_, ?_, ?_⟩
  · rw [h1]; simp
  · rw [h1, hc]
  · rw [h1, hc]
  · rw [h1]
  · rw [effectsSince_append _ _ _ (by rw [h1])]; rfl
  · rw [effectsSince_append _ _ _ (by rw [hsend]; rfl)]; rfl
  · rw [hsend]; rfl
  · rw [h2]; simp

/-! ## C14: `handleStartSession` when the session-creation call fails -/

/-- C14. When `apiService.startSession()` is rejected, `handleStartSession`
writes no state but the loading flag, which ends false (the renders those
writes cause leave the `handlePoseResults` in force without `lastTime`): the
session id is retained as it was (null on a fresh page), the recording flag
is as it was, the channel client is untouched (no connection opened, no
listener registered), no socket is constructed, no interval is started and
`timerRef` is as it was. What is logged is the request, an error line and
the failure alert. -/
theorem failed_start_is_atomic (e : String) (fn : Nat) (ctorThrows : Bool) (w : World) :
    (handleStartSession (.error e) fn ctorThrows w).page
        = { w.page with isLoading := false, lastTime := none }
    ∧ (handleStartSession (.error e) fn ctorThrows w).page.sessionId = w.page.sessionId
    ∧ (handleStartSession (.error e) fn ctorThrows World.initial).page.sessionId = none
    ∧ (handleStartSession (.error e) fn ctorThrows w).page.isRecording = w.page.isRecording
    ∧ (handleStartSession (.error e) fn ctorThrows w).svc = w.svc
    ∧ (handleStartSession (.error e) fn ctorThrows w).sockets = w.sockets
    ∧ (handleStartSession (.error e) fn ctorThrows w).intervals = w.intervals
    ∧ (handleStartSession (.error e) fn ctorThrows w).timeouts = w.timeouts
    ∧ effectsSince w (handleStartSession (.error e) fn ctorThrows w)
        = [Effect.startSession, Effect.consoleError "開始練習失敗:",
           Effect.alert "無法開始練習，請確認後端服務是否啟動"] := by
  have h : handleStartSession (.error e) fn ctorThrows w = { w with
      page := { w.page with isLoading := false, lastTime := none }
      log := w.log ++ [Effect.startSession, Effect.consoleError "開始練習失敗:",
                       Effect.alert "無法開始練習，請確認後端服務是否啟動"] } := by
    simp [handleStartSession, handleStartSessionBegin, handleStartSessionResume]
  refine ⟨by rw [h], by rw [h], by rfl, by rw [h], by rw [h], by rw [h], by rw [h], by rw [h], ?_⟩
  rw [effectsSince_append w _ _ (by rw [h])]

/-! ## C15: `handleEndSession` when the finalize call succeeds -/

/-- What the successful second half of `handleEndSession` does to the service,
the sockets, the recording flag and the intervals. -/
theorem handleEndSessionResume_ok (w : World) :
    (handleEndSessionResume true w).page.isRecording = false
    ∧ (handleEndSessionResume true w).svc = (disconnect w).svc
    ∧ (handleEndSessionResume true w).sockets = (disconnect w).sockets
    ∧ (handleEndSessionResume true w).intervals
        = (if truthyHandle w.page.timerRef
            then w.intervals.filter (fun i => i != w.page.timerRef.getD 0) else w.intervals)
    ∧ (handleEndSessionResume true w).page.sessionId = w.page.sessionId := by
  have hp : ∀ a : World, (disconnect a).page = a.page
      ∧ (disconnect a).intervals = a.intervals := by
    intro a
    unfold disconnect
    cases a.svc.ws <;> exact ⟨rfl, rfl⟩
  have hq : ∀ q : Page, (disconnect { w with page := q }).svc = (disconnect w).svc
      ∧ (disconnect { w with page := q }).sockets = (disconnect w).sockets := by
    intro q
    unfold disconnect
    cases w.svc.ws <;> exact ⟨rfl, rfl⟩
  unfold handleEndSessionResume
  by_cases ht : truthyHandle w.page.timerRef = true
  · simp [hp, hq, ht, clearInterval]
  · simp [hp, hq, ht]

/-- C15. When `handleEndSession` is called with a session id held: up to its
`await` it only sets the loading flag and issues the finalize request (the
recording flag, the channel client, the sockets and the intervals are as
before; if the flag changed, the render leaves a `handlePoseResults`
without `lastTime`); once the finalize call has resolved successfully the session is no
longer recording, `disconnect()` has been applied to the channel client (its
`ws` is null, and the connection it held has had `close()` called and the
bound session id cleared), and the interval held in `timerRef` is no longer
running. When it is called with no session id it returns the world
unchanged and issues no finalize request. -/
theorem successful_end (w : World) :
    (∀ sid, w.page.sessionId = some sid → truthy (some sid) = true →
      (∃ w0, handleEndSessionBegin w = some w0
        ∧ w0.page = { w.page with
                        isLoading := true
                        lastTime := if w.page.isLoading then w.page.lastTime else none }
        ∧ w0.svc = w.svc ∧ w0.sockets = w.sockets ∧ w0.intervals = w.intervals
        ∧ effectsSince w w0 = [Effect.mergeAndExport sid]
        ∧ handleEndSession true w = handleEndSessionResume true w0)
      ∧ (handleEndSession true w).page.isRecording = false
      ∧ (handleEndSession true w).svc = (disconnect w).svc
      ∧ (handleEndSession true w).sockets = (disconnect w).sockets
      ∧ (handleEndSession true w).svc.ws = none
      ∧ (∀ h, w.svc.ws = some h →
          (handleEndSession true w).svc.sessionId = none
          ∧ (effectsSince w (handleEndSession true w)).filter Effect.isWsClose
              = [Effect.wsClose h])
      ∧ (∀ t, w.page.timerRef = some t → t ≠ 0 → t ∉ (handleEndSession true w).intervals))
    ∧ (truthy w.page.sessionId = false →
        ∀ rpcOk, handleEndSession rpcOk w = w
          ∧ (effectsSince w (handleEndSession rpcOk w)).filter Effect.isMergeAndExport = []) := by
  constructor
  · intro sid hsid ht
    have hb : handleEndSessionBegin w = some { w with
        page := w.page.setIsLoading true
        log := w.log ++ [.mergeAndExport sid] } := by
      simp [handleEndSessionBegin, hsid, ht]
    have he : handleEndSession true w = handleEndSessionResume true { w with
        page := w.page.setIsLoading true
        log := w.log ++ [.mergeAndExport sid] } := by
      simp [handleEndSession, hb]
    obtain ⟨r1, r2, r3, r4, _⟩ := handleEndSessionResume_ok { w with
        page := w.page.setIsLoading true
        log := w.log ++ [.mergeAndExport sid] }
    have hsvc : (disconnect { w with
        page := w.page.setIsLoading true
        log := w.log ++ [.mergeAndExport sid] }).svc = (disconnect w).svc := by
      unfold disconnect
      cases w.svc.ws <;> rfl
    have hsock : (disconnect { w with
        page := w.page.setIsLoading true
        log := w.log ++ [.mergeAndExport sid] }).sockets = (disconnect w).sockets := by
      unfold disconnect
      cases w.svc.ws <;> rfl
    refine ⟨⟨_, hb, ?_, rfl, rfl, rfl, ?_, he⟩, ?_, ?_, ?_, ?_, ?_, ?_⟩
    · cases hl : w.page.isLoading <;> simp [hl]
    · rw [effectsSince_append w _ _ rfl]
    · rw [he]; exact r1
    · rw [he, r2, hsvc]
    · rw [he, r3, hsock]
    · rw [he, r2, hsvc]
      unfold disconnect
      cases hw : w.svc.ws <;> simp [hw]
    · intro h hw
      constructor
      · rw [he, r2, hsvc]
        unfold disconnect
        simp [hw]
      · rw [he]
        unfold handleEndSessionResume disconnect clearInterval
        simp only [hw, if_true]
        by_cases htr : truthyHandle w.page.timerRef = true
        · simp [htr, effectsSince, Effect.isWsClose]
        · simp [htr, effectsSince, Effect.isWsClose]
    · intro t htref hne
      rw [he, r4]
      simp [htref, truthyHandle, hne]
  · intro hf rpcOk
    have hn : handleEndSession rpcOk w = w := by
      unfold handleEndSession handleEndSessionBegin
      cases hsid : w.page.sessionId with
      | none => rfl
      | some sid =>
        rw [hsid] at hf
        simp [hf]
    rw [hn]
    exact ⟨rfl, by simp [effectsSince]⟩

/-- C15, witness: the active session `"abc123"`, whose `ws` is socket `0` and
whose `timerRef` holds interval `1`; and the fresh page, which holds no
session id. -/
theorem successful_end_witness :
    ((handleEndSession true (activeWorld "abc123")).page.isRecording = false
      ∧ (handleEndSession true (activeWorld "abc123")).svc.ws = none
      ∧ ((handleEndSession true (activeWorld "abc123")).svc.sessionId = none
          ∧ (effectsSince (activeWorld "abc123")
              (handleEndSession true (activeWorld "abc123"))).filter Effect.isWsClose
              = [Effect.wsClose 0])
      ∧ 1 ∉ (handleEndSession true (activeWorld "abc123")).intervals)
    ∧ (handleEndSession true World.initial = World.initial
        ∧ (effectsSince World.initial (handleEndSession true World.initial)).filter
            Effect.isMergeAndExport = []) :=
  ⟨⟨((successful_end (activeWorld "abc123")).1 "abc123" (by rfl) (by decide)).2.1,
    ((successful_end (activeWorld "abc123")).1 "abc123" (by rfl) (by decide)).2.2.2.2.1,
    ((successful_end (activeWorld "abc123")).1 "abc123" (by rfl) (by decide)).2.2.2.2.2.1 0
      (by rfl),
    ((successful_end (activeWorld "abc123")).1 "abc123" (by rfl) (by decide)).2.2.2.2.2.2 1
      (by rfl) (by decide)⟩,
   (successful_end World.initial).2 (by rfl) true⟩

/-! ## C16: teardown -/

/-- `disconnect` reads and writes only the service, the sockets and the log. -/
theorem disconnect_frame (w : World) :
    (disconnect w).page = w.page ∧ (disconnect w).intervals = w.intervals
    ∧ (disconnect w).timeouts = w.timeouts
    ∧ (disconnect w).svc.listeners = w.svc.listeners
    ∧ (disconnect w).svc.ws = none
    ∧ ((disconnect w).svc.sessionId = none ∨ (disconnect w).svc.sessionId = w.svc.sessionId)
    ∧ ∃ es, (disconnect w).log = w.log ++ es
        ∧ es.filter Effect.isMergeAndExport = []
        ∧ es.filter Effect.isWsClose
            = (match w.svc.ws with
                | some h => [Effect.wsClose h]
                | none => []) := by
  unfold disconnect
  cases hw : w.svc.ws with
  | none => exact ⟨rfl, rfl, rfl, rfl, hw, Or.inr rfl, [], by simp, rfl, rfl⟩
  | some h => exact ⟨rfl, rfl, rfl, rfl, rfl, Or.inl rfl, _, rfl, rfl, rfl⟩

/-- `disconnect` after `clearInterval` acts on the service and the sockets as
`disconnect` alone. -/
theorem disconnect_after_clearInterval (t : Nat) (w : World) :
    (disconnect (clearInterval t w)).svc = (disconnect w).svc
    ∧ (disconnect (clearInterval t w)).sockets = (disconnect w).sockets
    ∧ (disconnect (clearInterval t w)).intervals = w.intervals.filter (fun i => i != t)
    ∧ (disconnect (clearInterval t w)).page = w.page
    ∧ (effectsSince w (disconnect (clearInterval t w))).filter Effect.isWsClose
        = (effectsSince w (disconnect w)).filter Effect.isWsClose
    ∧ (effectsSince w (disconnect (clearInterval t w))).filter Effect.isMergeAndExport = [] := by
  unfold disconnect clearInterval
  cases hw : w.svc.ws with
  | none => simp [effectsSince, Effect.isWsClose, Effect.isMergeAndExport]
  | some h => simp [effectsSince, Effect.isWsClose, Effect.isMergeAndExport]

/-- C16. For every page state and whichever session id the cleanup closed
over: the cleanup completes normally (no error is raised); it sets no React
state; if `timerRef` holds an interval, that interval is cleared; if the
session id it closed over is held (truthy), `disconnect()` is applied to the
channel client, and otherwise the channel client and the sockets are left
alone and no `close()` is called; and it never issues the finalize/export
request. At unmount the session id it closed over is the one the page
holds. -/
theorem cleanup_is_best_effort (sid : Option String) (w : World) :
    (cleanup sid w).2 = Completion.normal
    ∧ (cleanup sid w).1.page = w.page
    ∧ (cleanup sid w).1.intervals
        = (if truthyHandle w.page.timerRef
            then w.intervals.filter (fun i => i != w.page.timerRef.getD 0) else w.intervals)
    ∧ (∀ t, w.page.timerRef = some t → t ≠ 0 → t ∉ (cleanup sid w).1.intervals)
    ∧ (truthy sid = true →
        (cleanup sid w).1.svc = (disconnect w).svc
        ∧ (cleanup sid w).1.sockets = (disconnect w).sockets
        ∧ (effectsSince w (cleanup sid w).1).filter Effect.isWsClose
            = (effectsSince w (disconnect w)).filter Effect.isWsClose)
    ∧ (truthy sid = false →
        (cleanup sid w).1.svc = w.svc
        ∧ (cleanup sid w).1.sockets = w.sockets
        ∧ (effectsSince w (cleanup sid w).1).filter Effect.isWsClose = [])
    ∧ (effectsSince w (cleanup sid w).1).filter Effect.isMergeAndExport = []
    ∧ teardown w = (cleanup w.page.sessionId w).1 := by
  have hint : (cleanup sid w).1.intervals
      = (if truthyHandle w.page.timerRef
          then w.intervals.filter (fun i => i != w.page.timerRef.getD 0) else w.intervals) := by
    unfold cleanup andThen
    by_cases ht : truthyHandle w.page.timerRef = true <;> by_cases hs : truthy sid = true
    · simp [ht, hs, (disconnect_after_clearInterval _ w).2.2.1]
    · simp [ht, hs, clearInterval]
    · simp [ht, hs, (disconnect_frame w).2.1]
    · simp [ht, hs]
  refine ⟨?_, ?_, hint, ?_, ?_, ?_, ?_, rfl⟩
  · unfold cleanup andThen
    by_cases ht : truthyHandle w.page.timerRef = true <;> by_cases hs : truthy sid = true <;>
      simp [ht, hs]
  · unfold cleanup andThen
    by_cases ht : truthyHandle w.page.timerRef = true <;> by_cases hs : truthy sid = true
    · simp [ht, hs, (disconnect_after_clearInterval _ w).2.2.2.1]
    · simp [ht, hs, clearInterval]
    · simp [ht, hs, (disconnect_frame w).1]
    · simp [ht, hs]
  · intro t htref hne
    rw [hint]
    simp [htref, truthyHandle, hne]
  · intro hs
    unfold cleanup andThen
    by_cases ht : truthyHandle w.page.timerRef = true
    · obtain ⟨a, b, _, _, c, _⟩ := disconnect_after_clearInterval (w.page.timerRef.getD 0) w
      simp [ht, hs, a, b, c]
    · simp [ht, hs]
  · intro hs
    unfold cleanup andThen
    by_cases ht : truthyHandle w.page.timerRef = true
    · simp [ht, hs, clearInterval, effectsSince, Effect.isWsClose]
    · simp [ht, hs, effectsSince]
  · unfold cleanup andThen
    by_cases ht : truthyHandle w.page.timerRef = true <;> by_cases hs : truthy sid = true
    · simp [ht, hs, (disconnect_after_clearInterval _ w).2.2.2.2.2]
    · simp [ht, hs, clearInterval, effectsSince, Effect.isMergeAndExport]
    · obtain ⟨_, _, _, _, _, _, es, hl, hm, _⟩ := disconnect_frame w
      simp [ht, hs, effectsSince_append w _ es hl, hm]
    · simp [ht, hs, effectsSince]

/-- C16, witness: unmount during the active session `"abc123"` clears
interval `1` and closes socket `0`; unmount of the fresh page, which holds no
session id, leaves the channel client alone. -/
theorem cleanup_is_best_effort_witness :
    1 ∉ (cleanup (some "abc123") (activeWorld "abc123")).1.intervals
    ∧ ((cleanup (some "abc123") (activeWorld "abc123")).1.svc
          = (disconnect (activeWorld "abc123")).svc
        ∧ (cleanup (some "abc123") (activeWorld "abc123")).1.sockets
          = (disconnect (activeWorld "abc123")).sockets
        ∧ (effectsSince (activeWorld "abc123")
              (cleanup (some "abc123") (activeWorld "abc123")).1).filter Effect.isWsClose
            = (effectsSince (activeWorld "abc123")
                (disconnect (activeWorld "abc123"))).filter Effect.isWsClose)
    ∧ ((cleanup none World.initial).1.svc = World.initial.svc
        ∧ (cleanup none World.initial).1.sockets = World.initial.sockets
        ∧ (effectsSince World.initial (cleanup none World.initial).1).filter Effect.isWsClose
            = []) :=
  ⟨(cleanup_is_best_effort (some "abc123") (activeWorld "abc123")).2.2.2.1 1 (by rfl)
      (by decide),
   (cleanup_is_best_effort (some "abc123") (activeWorld "abc123")).2.2.2.2.1 (by decide),
   (cleanup_is_best_effort none World.initial).2.2.2.2.2.1 (by rfl)⟩

/-! ## C17: the throttle scenario -/

/-- C17, counterexample. In the active session `"abc123"` with a fresh
throttle, calls at 1000, 1050 and 1100 ms forward one request (the first),
and a fourth call at 1200 ms, when exactly 200 ms have elapsed since the
forwarded one, is dropped as well: the test is `now - lastTime > 200`. And
when the first call is at `Date.now() = 0`, a second call 50 ms later is
forwarded too, because the stored `lastTime = 0` is falsy. -/
theorem throttle_drops_sample_at_exactly_200 :
    truthy (activeWorld "abc123").page.sessionId = true
    ∧ (activeWorld "abc123").page.isRecording = true
    ∧ (activeWorld "abc123").page.lastTime = none
    ∧ forwardedTimes [(1000, Json.null), (1050, Json.null), (1100, Json.null)]
        (activeWorld "abc123") = [1000]
    ∧ forwards 1200 Json.null
        (runSamples [(1000, Json.null), (1050, Json.null), (1100, Json.null)]
          (activeWorld "abc123")) = false
    ∧ forwardedTimes [(1000, Json.null), (1050, Json.null), (1100, Json.null),
        (1200, Json.null)] (activeWorld "abc123") = [1000]
    ∧ forwardedTimes [(0, Json.null), (50, Json.null)] (activeWorld "abc123") = [0, 50] := by
  refine ⟨by decide, by rfl, by rfl, by decide, by decide, by decide, by decide⟩

/-- C17, amended. In an active session: with a fresh throttle the first sample
is forwarded, whatever its time; after a forward at a non-zero time `l`, a
sample arriving at time `u` is dropped when `u - l <= 200` and forwarded when
`u - l > 200`. Hence, for every non-zero `t`, calls at `t`, `t+50`, `t+100`
and `t+200` forward exactly one request (the first), and calls at `t`,
`t+50`, `t+100` and `t+201` forward exactly two (the first and the last). -/
theorem throttle_scenario (w : World) (lm : Json)
    (hs : truthy w.page.sessionId = true) (hr : w.page.isRecording = true) :
    (w.page.lastTime = none → ∀ t, forwards t lm w = true
        ∧ (handlePoseResults t lm w).page.lastTime = some t)
    ∧ (∀ l u, w.page.lastTime = some l → l ≠ 0 →
        (u - l ≤ 200 → forwards u lm w = false)
        ∧ (200 < u - l → forwards u lm w = true))
    ∧ (w.page.lastTime = none → ∀ t, t ≠ 0 →
        forwardedTimes [(t, lm), (t + 50, lm), (t + 100, lm), (t + 200, lm)] w = [t]
        ∧ forwardedTimes [(t, lm), (t + 50, lm), (t + 100, lm), (t + 201, lm)] w
            = [t, t + 201]) := by
  refine ⟨?_, ?_, ?_⟩
  · intro hfresh t
    obtain ⟨h1, _, _, h4⟩ := handlePoseResults_active t lm w hs hr
    rw [h1, h4, hfresh]
    simp [truthyNum]
  · intro l u hl hne
    rw [(handlePoseResults_active u lm w hs hr).1, hl]
    constructor
    · intro hle
      simp [truthyNum, hne]
      omega
    · intro hgt
      simp [truthyNum, hne]
      omega
  · intro hfresh t hne
    rw [forwardedTimes_eq_throttle _ w hs hr, forwardedTimes_eq_throttle _ w hs hr, hfresh]
    simp [throttle, truthyNum, hne]

/-- C17, witness: session `"abc123"`, `t = 1000`. -/
theorem throttle_scenario_witness :
    forwardedTimes [((1000 : Int), Json.null), (1000 + 50, Json.null), (1000 + 100, Json.null),
        (1000 + 200, Json.null)] (activeWorld "abc123") = [1000]
    ∧ forwardedTimes [((1000 : Int), Json.null), (1000 + 50, Json.null),
        (1000 + 100, Json.null), (1000 + 201, Json.null)] (activeWorld "abc123")
        = [1000, 1000 + 201] :=
  (throttle_scenario (activeWorld "abc123") Json.null (by decide) (by rfl)).2.2 (by rfl) 1000
    (by decide)

/-! ## C18: leading-edge windows -/

/-- C18. A dropped sample has no effect at all: `handlePoseResults` returns the
world unchanged, so the stored timestamp is as before and nothing is sent,
and the samples after it are treated exactly as if it had not arrived. A
forwarded sample sets the stored timestamp to its own arrival time, changes
nothing else in the page, and logs exactly one analysis request. In an
active session the decision reads nothing but the stored timestamp of the
last forwarded sample and the arrival time: the sample is forwarded when no
timestamp is stored (or the stored one is the falsy 0) or when more than
200 ms separate the two. -/
theorem throttle_is_leading_edge (now : Int) (lm : Json) (w : World)
    (rest : List (Int × Json)) :
    (forwards now lm w = false →
      handlePoseResults now lm w = w
      ∧ forwardedTimes ((now, lm) :: rest) w = forwardedTimes rest w
      ∧ runSamples ((now, lm) :: rest) w = runSamples rest w)
    ∧ (forwards now lm w = true →
      (handlePoseResults now lm w).page = { w.page with lastTime := some now }
      ∧ (effectsSince w (handlePoseResults now lm w)).filter Effect.isAnalyzePose
          = effectsSince w (handlePoseResults now lm w)
      ∧ (effectsSince w (handlePoseResults now lm w)).length = 1)
    ∧ (truthy w.page.sessionId = true → w.page.isRecording = true →
      forwards now lm w
        = (!truthyNum w.page.lastTime || decide (now - w.page.lastTime.getD 0 > 200))) := by
  have hdrop : forwards now lm w = false → handlePoseResults now lm w = w := by
    intro hf
    rw [forwards_eq] at hf
    unfold handlePoseResults
    by_cases h1 : (!truthy w.page.sessionId || !w.page.isRecording) = true
    · simp only [h1, if_true]
    · simp only [h1]
      cases hsid : w.page.sessionId with
      | none => rfl
      | some sid =>
        have h2 : truthy w.page.sessionId = true ∧ w.page.isRecording = true := by
          simpa using h1
        rw [h2.1, h2.2] at hf
        have h3 : (!truthyNum w.page.lastTime
            || decide (now - w.page.lastTime.getD 0 > 200)) = false := by simpa using hf
        simp [h3]
  refine ⟨?_, ?_, ?_⟩
  · intro hf
    have hn := hdrop hf
    refine ⟨hn, ?_, ?_⟩
    · simp only [forwardedTimes, hf, hn]
      simp
    · simp only [runSamples, hn]
  · intro hf
    have hf2 := hf
    rw [forwards_eq] at hf2
    have h2 : (truthy w.page.sessionId = true ∧ w.page.isRecording = true)
        ∧ (!truthyNum w.page.lastTime || decide (now - w.page.lastTime.getD 0 > 200)) = true := by
      simpa [Bool.and_eq_true] using hf2
    cases hsid : w.page.sessionId with
    | none => rw [hsid] at h2; simp [truthy] at h2
    | some sid =>
      have hts : truthy (some sid) = true := by rw [← hsid]; exact h2.1.1
      have hh : handlePoseResults now lm w = { w with
          page := { w.page with lastTime := some now }
          log := w.log ++ [.analyzePose sid lm
                    (if w.page.selectedPose != "" then some w.page.selectedPose else none)] } := by
        unfold handlePoseResults
        simp only [hsid, hts, h2.1.2, h2.2]
        simp
      rw [hh, effectsSince_append w _ _ rfl]
      exact ⟨rfl, rfl, rfl⟩
  · intro hs hr
    exact (handlePoseResults_active now lm w hs hr).1

/-- C18, witness: in the active session `"abc123"`, after a forward at 1000 ms
the sample at 1100 ms is dropped and changes nothing, and the sample at
1201 ms is forwarded and stores 1201. -/
theorem throttle_is_leading_edge_witness :
    (handlePoseResults 1100 Json.null (handlePoseResults 1000 Json.null (activeWorld "abc123"))
        = handlePoseResults 1000 Json.null (activeWorld "abc123")
      ∧ forwardedTimes ((1100, Json.null) :: [(1201, Json.null)])
          (handlePoseResults 1000 Json.null (activeWorld "abc123"))
        = forwardedTimes [(1201, Json.null)]
            (handlePoseResults 1000 Json.null (activeWorld "abc123"))
      ∧ runSamples ((1100, Json.null) :: [(1201, Json.null)])
          (handlePoseResults 1000 Json.null (activeWorld "abc123"))
        = runSamples [(1201, Json.null)]
            (handlePoseResults 1000 Json.null (activeWorld "abc123")))
    ∧ ((handlePoseResults 1201 Json.null
          (handlePoseResults 1000 Json.null (activeWorld "abc123"))).page
        = { (handlePoseResults 1000 Json.null (activeWorld "abc123")).page with
            lastTime := some 1201 }
      ∧ (effectsSince (handlePoseResults 1000 Json.null (activeWorld "abc123"))
          (handlePoseResults 1201 Json.null
            (handlePoseResults 1000 Json.null (activeWorld "abc123")))).filter
          Effect.isAnalyzePose
        = effectsSince (handlePoseResults 1000 Json.null (activeWorld "abc123"))
          (handlePoseResults 1201 Json.null
            (handlePoseResults 1000 Json.null (activeWorld "abc123")))
      ∧ (effectsSince (handlePoseResults 1000 Json.null (activeWorld "abc123"))
          (handlePoseResults 1201 Json.null
            (handlePoseResults 1000 Json.null (activeWorld "abc123")))).length = 1) :=
  ⟨(throttle_is_leading_edge 1100 Json.null
      (handlePoseResults 1000 Json.null (activeWorld "abc123")) [(1201, Json.null)]).1
      (by decide),
   (throttle_is_leading_edge 1201 Json.null
      (handlePoseResults 1000 Json.null (activeWorld "abc123")) []).2.1 (by decide)⟩

/-! ## The whole client: what each event leaves alone -/

/-- `handleWebSocketMessage` never touches the session id. -/
theorem handleWebSocketMessage_sessionId (m : Json) (p : Page) :
    (handleWebSocketMessage m p).1.sessionId = p.sessionId := by
  unfold handleWebSocketMessage
  split
  · rfl
  · split <;> simp
  · rfl

/-- Dispatching to listeners that are all `handleWebSocketMessage` keeps the
session id of the page. -/
theorem fold_listeners_sessionId (v : Json) (ls : List Listener) :
    ∀ p : Page, (∀ l ∈ ls, l.call = handleWebSocketMessage) →
      (ls.foldl (fun q l => (l.call v q).1) p).sessionId = p.sessionId := by
  induction ls with
  | nil => intro p _; rfl
  | cons l rest ih =>
    intro p hl
    simp only [List.foldl_cons]
    rw [ih _ (fun x hx => hl x (List.mem_cons_of_mem _ hx)), hl l (List.mem_cons_self _ _)]
    exact handleWebSocketMessage_sessionId v p

/-- The `onopen` handler, once run, leaves the page, the bound session id and
the listeners alone. -/
theorem onopen_frame (sid : Option String) (w : World) :
    (runHandler (onopen sid w)).page = w.page
    ∧ (runHandler (onopen sid w)).svc.sessionId = w.svc.sessionId
    ∧ (runHandler (onopen sid w)).svc.listeners = w.svc.listeners := by
  cases hw : w.svc.ws with
  | none => simp [onopen, hw, runHandler, World.emit]
  | some cur =>
    cases hs : w.sockets[cur]? with
    | none => simp [onopen, hw, wsSend, hs, runHandler, World.emit]
    | some s =>
      cases hr : s.readyState <;> simp [onopen, hw, wsSend, hs, hr, runHandler, World.emit]

/-- The open of a socket leaves the page, the bound session id and the
listeners alone. -/
theorem fireOpen_frame (h : Nat) (w : World) :
    (fireOpen h w).page = w.page
    ∧ (fireOpen h w).svc.sessionId = w.svc.sessionId
    ∧ (fireOpen h w).svc.listeners = w.svc.listeners := by
  unfold fireOpen
  cases hs : w.sockets[h]? with
  | none => exact ⟨rfl, rfl, rfl⟩
  | some s =>
    by_cases hc : s.readyState = .connecting
    · simp only [hc, if_true]
      exact onopen_frame _ _
    · simp [hc]

/-- `handleReconnect` leaves the page, the bound session id and the listeners
alone. -/
theorem handleReconnect_frame (w : World) :
    (handleReconnect w).page = w.page
    ∧ (handleReconnect w).svc.sessionId = w.svc.sessionId
    ∧ (handleReconnect w).svc.listeners = w.svc.listeners := by
  unfold handleReconnect
  split <;> exact ⟨rfl, rfl, rfl⟩

/-- The closure of a socket leaves the page, the bound session id and the
listeners alone. -/
theorem fireClose_frame (h : Nat) (w : World) :
    (fireClose h w).page = w.page
    ∧ (fireClose h w).svc.sessionId = w.svc.sessionId
    ∧ (fireClose h w).svc.listeners = w.svc.listeners := by
  unfold fireClose
  cases hs : w.sockets[h]? with
  | none => exact ⟨rfl, rfl, rfl⟩
  | some s =>
    by_cases hc : s.readyState = .closed
    · simp [hc]
    · simp only [hc, if_false, onclose]
      exact handleReconnect_frame _

/-- A reconnect timer firing leaves the page, the bound session id and the
listeners alone. -/
theorem fireTimeout_frame (k : Nat) (t : Bool) (w : World) :
    (fireTimeout k t w).page = w.page
    ∧ (fireTimeout k t w).svc.sessionId = w.svc.sessionId
    ∧ (fireTimeout k t w).svc.listeners = w.svc.listeners := by
  unfold fireTimeout connect
  by_cases hk : k < w.timeouts.length <;> cases t <;> simp [hk, World.emit]

/-- A frame arriving leaves the service alone, and the session id of the page
too when every listener is a `handleWebSocketMessage`. -/
theorem fireMessage_frame (h : Nat) (d : FrameData) (w : World)
    (hl : ∀ l ∈ w.svc.listeners, l.call = handleWebSocketMessage) :
    (fireMessage h d w).svc = w.svc
    ∧ (fireMessage h d w).page.sessionId = w.page.sessionId := by
  unfold fireMessage
  cases hs : w.sockets[h]? with
  | none => exact ⟨rfl, rfl⟩
  | some s =>
    by_cases hc : s.readyState = .open
    · simp only [hc, if_true]
      cases d with
      | malformed text =>
        simp [onmessage, tryCatch, jsonParse, runHandler, World.emit]
      | wellFormed v =>
        obtain ⟨es, he, _⟩ := onmessage_wellFormed v w
        rw [he]
        exact ⟨rfl, fold_listeners_sessionId v _ _ hl⟩
    · simp [hc]

/-- The second half of `handleStartSession`: on success the page and the
channel client hold the new session id and one listener is appended; on
failure neither changes. -/
theorem handleStartSessionResume_frame (rpc : Except String (Option String)) (fn : Nat)
    (t : Bool) (w : World) :
    (handleStartSessionResume rpc fn t w).svc.listeners
        = w.svc.listeners ++ (AppEvent.startResume rpc fn t).registers
    ∧ (match rpc with
        | .ok sid => (handleStartSessionResume rpc fn t w).page.sessionId = sid
            ∧ (handleStartSessionResume rpc fn t w).svc.sessionId = sid
        | .error _ => (handleStartSessionResume rpc fn t w).page.sessionId = w.page.sessionId
            ∧ (handleStartSessionResume rpc fn t w).svc.sessionId = w.svc.sessionId) := by
  cases rpc with
  | error e => simp [handleStartSessionResume, AppEvent.registers]
  | ok sid =>
    cases t <;>
      simp [handleStartSessionResume, AppEvent.registers, addListener, connect, World.emit]

/-- The second half of `handleEndSession` keeps the session id of the page and
the listeners, and leaves the bound session id alone or null. -/
theorem handleEndSessionResume_frame (ok : Bool) (w : World) :
    (handleEndSessionResume ok w).page.sessionId = w.page.sessionId
    ∧ (handleEndSessionResume ok w).svc.listeners = w.svc.listeners
    ∧ ((handleEndSessionResume ok w).svc.sessionId = none
        ∨ (handleEndSessionResume ok w).svc.sessionId = w.svc.sessionId) := by
  cases ok with
  | false => simp [handleEndSessionResume]
  | true =>
    obtain ⟨_, r2, _, _, r5⟩ := handleEndSessionResume_ok w
    obtain ⟨_, _, _, d4, _, d6, _⟩ := disconnect_frame w
    rw [r2, r5]
    exact ⟨rfl, d4, d6⟩

/-- The first half of `handleEndSession` keeps the session ids and the
listeners. -/
theorem handleEndSessionBegin_frame (w : World) :
    ((handleEndSessionBegin w).getD w).page.sessionId = w.page.sessionId
    ∧ ((handleEndSessionBegin w).getD w).svc = w.svc := by
  unfold handleEndSessionBegin
  cases hsid : w.page.sessionId with
  | none => exact ⟨hsid.symm ▸ rfl, rfl⟩
  | some sid =>
    by_cases ht : truthy (some sid) = true
    · simp [ht, hsid]
    · simp [ht, hsid]

/-- The effect cleanup keeps the page and the listeners, and leaves the bound
session id alone or null. -/
theorem cleanup_frame (sid : Option String) (w : World) :
    (cleanup sid w).1.page = w.page
    ∧ (cleanup sid w).1.svc.listeners = w.svc.listeners
    ∧ ((cleanup sid w).1.svc.sessionId = none
        ∨ (cleanup sid w).1.svc.sessionId = w.svc.sessionId) := by
  obtain ⟨_, _, _, d4, _, d6, _⟩ := disconnect_frame w
  unfold cleanup andThen
  by_cases ht : truthyHandle w.page.timerRef = true <;> by_cases hs : truthy sid = true
  · obtain ⟨a, _, _, b, _, _⟩ := disconnect_after_clearInterval (w.page.timerRef.getD 0) w
    simp only [ht, hs, if_true]
    rw [a, b]
    exact ⟨rfl, d4, d6⟩
  · simp [ht, hs, clearInterval]
  · obtain ⟨d1, _⟩ := disconnect_frame w
    simp only [ht, hs, if_true]
    exact ⟨d1, d4, d6⟩
  · simp [ht, hs]

/-- `handlePoseResults` keeps the session id of the page and the service. -/
theorem handlePoseResults_frame (now : Int) (lm : Json) (w : World) :
    (handlePoseResults now lm w).page.sessionId = w.page.sessionId
    ∧ (handlePoseResults now lm w).svc = w.svc := by
  unfold handlePoseResults
  split
  · exact ⟨rfl, rfl⟩
  · split
    · exact ⟨rfl, rfl⟩
    · split <;> exact ⟨rfl, rfl⟩

/-- Every event appends the listeners it registers and removes none. -/
theorem apply_listeners (e : AppEvent) (w : World) :
    (e.apply w).svc.listeners = w.svc.listeners ++ e.registers := by
  cases e with
  | startBegin => simp [AppEvent.apply, AppEvent.registers, handleStartSessionBegin]
  | startResume rpc fn t => exact (handleStartSessionResume_frame rpc fn t w).1
  | endBegin =>
    simp only [AppEvent.apply, AppEvent.registers, List.append_nil]
    rw [(handleEndSessionBegin_frame w).2]
  | endResume ok =>
    simp only [AppEvent.apply, AppEvent.registers, List.append_nil]
    exact (handleEndSessionResume_frame ok w).2.1
  | cleanup sid =>
    simp only [AppEvent.apply, AppEvent.registers, List.append_nil]
    exact (cleanup_frame sid w).2.1
  | sample now lm =>
    simp only [AppEvent.apply, AppEvent.registers, List.append_nil]
    rw [(handlePoseResults_frame now lm w).2]
  | tick h =>
    simp only [AppEvent.apply, AppEvent.registers, List.append_nil, tick]
    split <;> rfl
  | «open» h =>
    simp only [AppEvent.apply, AppEvent.registers, List.append_nil]
    exact (fireOpen_frame h w).2.2
  | message h d =>
    simp only [AppEvent.apply, AppEvent.registers, List.append_nil, fireMessage]
    cases hs : w.sockets[h]? with
    | none => rfl
    | some s =>
      by_cases hc : s.readyState = .open
      · obtain ⟨_, _, _, h3⟩ := onmessage_counter d w
        simp only [hc, if_true]
        rw [h3]
      · simp [hc]
  | error h =>
    simp only [AppEvent.apply, AppEvent.registers, List.append_nil, fireError]
    cases hs : w.sockets[h]? <;> simp [onerror, World.emit]
  | close h =>
    simp only [AppEvent.apply, AppEvent.registers, List.append_nil]
    exact (fireClose_frame h w).2.2
  | timer k t =>
    simp only [AppEvent.apply, AppEvent.registers, List.append_nil]
    exact (fireTimeout_frame k t w).2.2

/-- Along a run the listeners are the initial ones followed by the registered
ones. -/
theorem runApp_listeners (es : List AppEvent) :
    ∀ w : World, (runApp es w).svc.listeners = w.svc.listeners ++ registered es := by
  induction es with
  | nil => intro w; simp [runApp, registered]
  | cons e rest ih =>
    intro w
    simp only [runApp, registered]
    rw [ih, apply_listeners, List.append_assoc]

/-- The listeners registered along a run are as many as its successful
starts, and each is a `handleWebSocketMessage`. -/
theorem registered_spec (es : List AppEvent) :
    (registered es).length = (es.filter AppEvent.isSuccessfulStart).length
    ∧ ∀ l ∈ registered es, l.call = handleWebSocketMessage := by
  induction es with
  | nil => simp [registered]
  | cons e rest ih =>
    obtain ⟨ih1, ih2⟩ := ih
    cases e with
    | startResume rpc fn t =>
      cases rpc with
      | ok sid =>
        refine ⟨by simp [registered, AppEvent.registers, AppEvent.isSuccessfulStart, ih1], ?_⟩
        intro l hl
        simp only [registered, AppEvent.registers, List.mem_append, List.mem_singleton] at hl
        rcases hl with hl | hl
        · rw [hl]; rfl
        · exact ih2 l hl
      | error e =>
        exact ⟨by simp [registered, AppEvent.registers, AppEvent.isSuccessfulStart, ih1],
          by simpa [registered, AppEvent.registers] using ih2⟩
    | _ =>
      exact ⟨by simp [registered, AppEvent.registers, AppEvent.isSuccessfulStart, ih1],
        by simpa [registered, AppEvent.registers] using ih2⟩

/-- Every event preserves the binding invariant. -/
theorem apply_bound (e : AppEvent) (w : World) (hb : Bound w) : Bound (e.apply w) := by
  obtain ⟨hid, hl⟩ := hb
  constructor
  · cases e with
    | startBegin => simpa [AppEvent.apply, handleStartSessionBegin] using hid
    | startResume rpc fn t =>
      have h := (handleStartSessionResume_frame rpc fn t w).2
      cases rpc with
      | ok sid =>
        right
        show (handleStartSessionResume (.ok sid) fn t w).svc.sessionId
          = (handleStartSessionResume (.ok sid) fn t w).page.sessionId
        rw [h.1, h.2]
      | error e =>
        show (handleStartSessionResume (.error e) fn t w).svc.sessionId = none
          ∨ (handleStartSessionResume (.error e) fn t w).svc.sessionId
            = (handleStartSessionResume (.error e) fn t w).page.sessionId
        rw [h.1, h.2]
        exact hid
    | endBegin =>
      show ((handleEndSessionBegin w).getD w).svc.sessionId = none
        ∨ ((handleEndSessionBegin w).getD w).svc.sessionId
          = ((handleEndSessionBegin w).getD w).page.sessionId
      rw [(handleEndSessionBegin_frame w).1, (handleEndSessionBegin_frame w).2]
      exact hid
    | endResume ok =>
      obtain ⟨a, _, c⟩ := handleEndSessionResume_frame ok w
      show (handleEndSessionResume ok w).svc.sessionId = none
        ∨ (handleEndSessionResume ok w).svc.sessionId
          = (handleEndSessionResume ok w).page.sessionId
      rw [a]
      rcases c with c | c
      · exact Or.inl c
      · rw [c]; exact hid
    | cleanup sid =>
      obtain ⟨a, _, c⟩ := cleanup_frame sid w
      show (cleanup sid w).1.svc.sessionId = none
        ∨ (cleanup sid w).1.svc.sessionId = (cleanup sid w).1.page.sessionId
      rw [a]
      rcases c with c | c
      · exact Or.inl c
      · rw [c]; exact hid
    | sample now lm =>
      show (handlePoseResults now lm w).svc.sessionId = none
        ∨ (handlePoseResults now lm w).svc.sessionId
          = (handlePoseResults now lm w).page.sessionId
      rw [(handlePoseResults_frame now lm w).1, (handlePoseResults_frame now lm w).2]
      exact hid
    | tick h =>
      simp only [AppEvent.apply, tick]
      split
      · exact hid
      · exact hid
    | «open» h =>
      obtain ⟨a, b, _⟩ := fireOpen_frame h w
      show (fireOpen h w).svc.sessionId = none
        ∨ (fireOpen h w).svc.sessionId = (fireOpen h w).page.sessionId
      rw [a, b]
      exact hid
    | message h d =>
      obtain ⟨a, b⟩ := fireMessage_frame h d w hl
      show (fireMessage h d w).svc.sessionId = none
        ∨ (fireMessage h d w).svc.sessionId = (fireMessage h d w).page.sessionId
      rw [a, b]
      exact hid
    | error h =>
      simp only [AppEvent.apply, fireError]
      cases hs : w.sockets[h]? with
      | none => exact hid
      | some s => exact hid
    | close h =>
      obtain ⟨a, b, _⟩ := fireClose_frame h w
      show (fireClose h w).svc.sessionId = none
        ∨ (fireClose h w).svc.sessionId = (fireClose h w).page.sessionId
      rw [a, b]
      exact hid
    | timer k t =>
      obtain ⟨a, b, _⟩ := fireTimeout_frame k t w
      show (fireTimeout k t w).svc.sessionId = none
        ∨ (fireTimeout k t w).svc.sessionId = (fireTimeout k t w).page.sessionId
      rw [a, b]
      exact hid
  · intro l hmem
    rw [apply_listeners] at hmem
    rcases List.mem_append.mp hmem with hmem | hmem
    · exact hl l hmem
    · cases e with
      | startResume rpc fn t =>
        cases rpc with
        | ok sid =>
          simp only [AppEvent.registers, List.mem_singleton] at hmem
          rw [hmem]; rfl
        | error e => simp [AppEvent.registers] at hmem
      | _ => simp [AppEvent.registers] at hmem

/-- Every run from a state with the binding invariant ends in one. -/
theorem runApp_bound (es : List AppEvent) : ∀ w : World, Bound w → Bound (runApp es w) := by
  induction es with
  | nil => intro w hb; exact hb
  | cons e rest ih => intro w hb; exact ih _ (apply_bound e w hb)

/-! ## C19: the binding invariant -/

/-- C19. In every state reached from the freshly loaded page by the halves
of `handleStartSession` and `handleEndSession` (whatever their calls return),
the effect cleanup (whichever session id it closed over), landmark samples,
ticks, socket events (open, message, error, unexpected closure) and
reconnect timers firing: the session id bound in the channel client, which
is the reconnect target, is null or equal to the session id the page holds;
so the page and the channel client together hold at most one session id. -/
theorem binding_invariant (es : List AppEvent) :
    ((runApp es World.initial).svc.sessionId = none
      ∨ (runApp es World.initial).svc.sessionId = (runApp es World.initial).page.sessionId)
    ∧ (heldSessions (runApp es World.initial)).length ≤ 1 := by
  have hb : Bound (runApp es World.initial) :=
    runApp_bound es World.initial ⟨Or.inl rfl, by intro l hl; simp [World.initial,
      WebSocketService.new] at hl⟩
  refine ⟨hb.1, ?_⟩
  unfold heldSessions
  rcases hb.1 with h | h
  · rw [h]
    cases (runApp es World.initial).page.sessionId <;> simp
  · rw [h]
    cases (runApp es World.initial).page.sessionId <;> simp

/-! ## C20: listeners accumulate -/

/-- C20. Every successful `handleStartSession` appends exactly one listener,
a `handleWebSocketMessage`, to the listeners of the shared channel client;
`handleEndSession` (whether its call succeeds or not), the effect cleanup
and `disconnect()` remove none and add none. So along every run the list
grows by one entry per successful start and never shrinks, and once `k`
starts have succeeded since the page loaded, a single message arriving on an
open socket calls `handleWebSocketMessage` `k` times. -/
theorem listeners_accumulate (es : List AppEvent) (w : World) (sid csid : Option String)
    (fn h : Nat) (t ok : Bool) (v : Json) :
    (handleStartSession (.ok sid) fn t w).svc.listeners
        = w.svc.listeners ++ [feedbackListener fn]
    ∧ (handleEndSession ok w).svc.listeners = w.svc.listeners
    ∧ (cleanup csid w).1.svc.listeners = w.svc.listeners
    ∧ (disconnect w).svc.listeners = w.svc.listeners
    ∧ (runApp es w).svc.listeners.length
        = w.svc.listeners.length + (es.filter AppEvent.isSuccessfulStart).length
    ∧ ((∃ s, (runApp es World.initial).sockets[h]? = some s ∧ s.readyState = ReadyState.open) →
        ((effectsSince (runApp es World.initial)
            (fireMessage h (.wellFormed v) (runApp es World.initial))).filterMap
          Effect.listenerCall?).length = (es.filter AppEvent.isSuccessfulStart).length
        ∧ ∀ l ∈ (runApp es World.initial).svc.listeners, l.call = handleWebSocketMessage) := by
  refine ⟨?_, ?_, (cleanup_frame csid w).2.1, (disconnect_frame w).2.2.2.1, ?_, ?_⟩
  · have := (handleStartSessionResume_frame (.ok sid) fn t (handleStartSessionBegin w)).1
    simpa [handleStartSession, AppEvent.registers, handleStartSessionBegin] using this
  · unfold handleEndSession
    cases hb : handleEndSessionBegin w with
    | none => rfl
    | some w0 =>
      have h1 := (handleEndSessionBegin_frame w).2
      rw [hb] at h1
      simp only [Option.getD_some] at h1
      rw [(handleEndSessionResume_frame ok w0).2.1, h1]
  · rw [runApp_listeners, List.length_append, (registered_spec es).1]
  · rintro ⟨s, hs, ho⟩
    have hl := runApp_listeners es World.initial
    have hls : (runApp es World.initial).svc.listeners = registered es := by
      rw [hl]; rfl
    constructor
    · rw [fireMessage_wellFormed_calls, hs]
      simp only [ho, if_true, List.length_map]
      rw [hls, (registered_spec es).1]
    · intro l hmem
      rw [hls] at hmem
      exact (registered_spec es).2 l hmem

/-- C20, witness: two sessions started one after the other on the same
channel client; a feedback frame on the second, open socket calls the
feedback router twice. -/
theorem listeners_accumulate_witness :
    ((effectsSince
        (runApp [AppEvent.startBegin, AppEvent.startResume (.ok (some "abc123")) 0 false,
          AppEvent.open 0, AppEvent.endBegin, AppEvent.endResume true, AppEvent.startBegin,
          AppEvent.startResume (.ok (some "def456")) 1 false, AppEvent.open 1] World.initial)
        (fireMessage 1 (.wellFormed treePoseMessage)
          (runApp [AppEvent.startBegin, AppEvent.startResume (.ok (some "abc123")) 0 false,
            AppEvent.open 0, AppEvent.endBegin, AppEvent.endResume true, AppEvent.startBegin,
            AppEvent.startResume (.ok (some "def456")) 1 false, AppEvent.open 1]
            World.initial))).filterMap Effect.listenerCall?).length
      = ([AppEvent.startBegin, AppEvent.startResume (.ok (some "abc123")) 0 false,
          AppEvent.open 0, AppEvent.endBegin, AppEvent.endResume true, AppEvent.startBegin,
          AppEvent.startResume (.ok (some "def456")) 1 false, AppEvent.open 1].filter
          AppEvent.isSuccessfulStart).length
    ∧ ([AppEvent.startBegin, AppEvent.startResume (.ok (some "abc123")) 0 false,
          AppEvent.open 0, AppEvent.endBegin, AppEvent.endResume true, AppEvent.startBegin,
          AppEvent.startResume (.ok (some "def456")) 1 false, AppEvent.open 1].filter
          AppEvent.isSuccessfulStart).length = 2 :=
  ⟨((listeners_accumulate
      [AppEvent.startBegin, AppEvent.startResume (.ok (some "abc123")) 0 false,
        AppEvent.open 0, AppEvent.endBegin, AppEvent.endResume true, AppEvent.startBegin,
        AppEvent.startResume (.ok (some "def456")) 1 false, AppEvent.open 1]
      World.initial none none 0 1 false true treePoseMessage).2.2.2.2.2
      ⟨_, by rfl, by rfl⟩).1,
   by rfl⟩

end YogaCoach
